import Mathlib

set_option maxHeartbeats 1000000

/-!
Verification of the image sample-count conformance test logic
(`vktImageSampleCountsTests`) against its natural-language specification.

The sources under verification contain the rule evaluator
(`getColorSampleCounts`, `getDepthStencilSampleCounts`, `getSampledSampleCounts`,
`getStorageSampleCounts`, `checkUsageFlags` and the other five subtest checks)
and the case enumerator (`addUsageFlagsSubtests`, `enumerateAllFormatsToTest`,
`createImageSampleCountsTests`).

The Vulkan enumerant values, the format classification utilities
(`isCompressedFormat`, `isYCbCrFormat`, `mapVkFormat`, `isFloatFormat`,
`isSnormFormat`, `isUnormFormat`, `isIntFormat`, `isUintFormat`) and the format
short names (`getFormatShortString`) live in framework utilities outside the
verified sources; they are modelled from the spec as an abstract classification
oracle, and the capability queries are modelled as a read-only snapshot, as the
spec describes them.
-/

/-- Vulkan result codes relevant to the tests (subset of `VkResult`).
`VK_ERROR_OUT_OF_HOST_MEMORY` and `VK_ERROR_OUT_OF_DEVICE_MEMORY` stand for the
"other", non-format-related error results a capability query may return. -/
inductive VkResult where
  | VK_SUCCESS
  | VK_ERROR_OUT_OF_HOST_MEMORY
  | VK_ERROR_OUT_OF_DEVICE_MEMORY
  | VK_ERROR_FORMAT_NOT_SUPPORTED
deriving DecidableEq

/-- `VkImageType` (1D, 2D, 3D). -/
inductive VkImageType where
  | VK_IMAGE_TYPE_1D
  | VK_IMAGE_TYPE_2D
  | VK_IMAGE_TYPE_3D
deriving DecidableEq

/-- `VkImageTiling` (optimal, linear). -/
inductive VkImageTiling where
  | VK_IMAGE_TILING_OPTIMAL
  | VK_IMAGE_TILING_LINEAR
deriving DecidableEq

/-- The test-utility image-type enumeration used by the case enumerator
(restricted to the three members the enumerator iterates over). -/
inductive ImageType where
  | IMAGE_TYPE_1D
  | IMAGE_TYPE_2D
  | IMAGE_TYPE_3D
deriving DecidableEq

/-- `mapImageType`, restricted to the three image types under test. -/
def mapImageType : ImageType → VkImageType
  | .IMAGE_TYPE_1D => .VK_IMAGE_TYPE_1D
  | .IMAGE_TYPE_2D => .VK_IMAGE_TYPE_2D
  | .IMAGE_TYPE_3D => .VK_IMAGE_TYPE_3D

/-- `VK_SAMPLE_COUNT_1_BIT` (sample-count sets are bitmasks over powers of two). -/
def VK_SAMPLE_COUNT_1_BIT : Nat := 1

/-- `VK_IMAGE_USAGE_SAMPLED_BIT` (0x00000004). -/
def VK_IMAGE_USAGE_SAMPLED_BIT : Nat := 4

/-- `VK_IMAGE_USAGE_STORAGE_BIT` (0x00000008). -/
def VK_IMAGE_USAGE_STORAGE_BIT : Nat := 8

/-- `VK_IMAGE_USAGE_COLOR_ATTACHMENT_BIT` (0x00000010). -/
def VK_IMAGE_USAGE_COLOR_ATTACHMENT_BIT : Nat := 16

/-- `VK_IMAGE_USAGE_DEPTH_STENCIL_ATTACHMENT_BIT` (0x00000020). -/
def VK_IMAGE_USAGE_DEPTH_STENCIL_ATTACHMENT_BIT : Nat := 32

/-- `VK_FORMAT_FEATURE_COLOR_ATTACHMENT_BIT` (0x00000080). -/
def VK_FORMAT_FEATURE_COLOR_ATTACHMENT_BIT : Nat := 128

/-- `VK_FORMAT_FEATURE_DEPTH_STENCIL_ATTACHMENT_BIT` (0x00000200). -/
def VK_FORMAT_FEATURE_DEPTH_STENCIL_ATTACHMENT_BIT : Nat := 512

/-- `VK_IMAGE_CREATE_CUBE_COMPATIBLE_BIT` (0x00000010). -/
def VK_IMAGE_CREATE_CUBE_COMPATIBLE_BIT : Nat := 16

/-- Channel orders of `tcu::TextureFormat` distinguished by the checks:
`D` (pure depth), `S` (pure stencil), `DS` (combined depth+stencil) and a few
representative color orders. -/
inductive ChannelOrder where
  | R
  | RG
  | RGB
  | RGBA
  | D
  | S
  | DS
deriving DecidableEq

/-- Texture channel classes of the framework (`tcu::getTextureChannelClass`);
the five format-classification predicates are mutually exclusive because each
tests this single classification. -/
inductive TextureChannelClass where
  | SIGNED_FIXED_POINT
  | UNSIGNED_FIXED_POINT
  | SIGNED_INTEGER
  | UNSIGNED_INTEGER
  | FLOATING_POINT
  | OTHER
deriving DecidableEq

/-- Modelled from the spec: the format classification utilities
(`isCompressedFormat`, `isYCbCrFormat`, `mapVkFormat(..).order`, and the channel
class behind `isFloatFormat`/`isSnormFormat`/`isUnormFormat`/`isIntFormat`/
`isUintFormat`) are framework code outside the verified sources.  A format is a
`VkFormat` identifier (a natural number), and this oracle carries its
classification attributes, read-only, exactly as the checks consume them. -/
structure FormatOracle where
  isCompressedFormat : Nat → Bool
  isYCbCrFormat : Nat → Bool
  mapVkFormatOrder : Nat → ChannelOrder
  getTextureChannelClass : Nat → TextureChannelClass

/-- `vk::isFloatFormat`: the format's channel class is floating point. -/
def isFloatFormat (fo : FormatOracle) (format : Nat) : Bool :=
  fo.getTextureChannelClass format == TextureChannelClass.FLOATING_POINT

/-- `vk::isSnormFormat`: the format's channel class is signed fixed point. -/
def isSnormFormat (fo : FormatOracle) (format : Nat) : Bool :=
  fo.getTextureChannelClass format == TextureChannelClass.SIGNED_FIXED_POINT

/-- `vk::isUnormFormat`: the format's channel class is unsigned fixed point. -/
def isUnormFormat (fo : FormatOracle) (format : Nat) : Bool :=
  fo.getTextureChannelClass format == TextureChannelClass.UNSIGNED_FIXED_POINT

/-- `vk::isIntFormat`: the format's channel class is signed integer. -/
def isIntFormat (fo : FormatOracle) (format : Nat) : Bool :=
  fo.getTextureChannelClass format == TextureChannelClass.SIGNED_INTEGER

/-- `vk::isUintFormat`: the format's channel class is unsigned integer. -/
def isUintFormat (fo : FormatOracle) (format : Nat) : Bool :=
  fo.getTextureChannelClass format == TextureChannelClass.UNSIGNED_INTEGER

/-- `CaseDef` from the test sources: one immutable case description. -/
structure CaseDef where
  format : Nat
  imageType : VkImageType
  imageTiling : VkImageTiling
  usageFlags : Nat
deriving DecidableEq

/-- The device-limit fields consumed by the checks
(`VkPhysicalDeviceLimits`, sample-count masks). -/
structure VkPhysicalDeviceLimits where
  framebufferColorSampleCounts : Nat
  framebufferDepthSampleCounts : Nat
  framebufferStencilSampleCounts : Nat
  sampledImageColorSampleCounts : Nat
  sampledImageDepthSampleCounts : Nat
  sampledImageIntegerSampleCounts : Nat
  storageImageSampleCounts : Nat
deriving DecidableEq

/-- `VkPhysicalDeviceProperties` (limits only; other fields are unused). -/
structure VkPhysicalDeviceProperties where
  limits : VkPhysicalDeviceLimits
deriving DecidableEq

/-- `VkPhysicalDeviceProperties2` (the `properties` member; `sType`/`pNext`
chaining carries no logic). -/
structure VkPhysicalDeviceProperties2 where
  properties : VkPhysicalDeviceProperties
deriving DecidableEq

/-- `VkPhysicalDeviceVulkan12Properties` (the one extended limit consumed). -/
structure VkPhysicalDeviceVulkan12Properties where
  framebufferIntegerColorSampleCounts : Nat
deriving DecidableEq

/-- `VkFormatProperties` as returned by `getPhysicalDeviceFormatProperties`. -/
structure VkFormatProperties where
  linearTilingFeatures : Nat
  optimalTilingFeatures : Nat
  bufferFeatures : Nat
deriving DecidableEq

/-- `VkImageFormatProperties` (the checks read only `sampleCounts`). -/
structure VkImageFormatProperties where
  sampleCounts : Nat
deriving DecidableEq

/-- The read-only capability snapshot a case is evaluated against: the two
query entry points of the instance interface plus the device properties filled
in by `getPhysicalDeviceProperties2`.  `getPhysicalDeviceImageFormatProperties`
takes the format, image type, tiling, usage flags and create flags and returns
the result code together with the written-back properties. -/
structure Context where
  getPhysicalDeviceFormatProperties : Nat → VkFormatProperties
  getPhysicalDeviceImageFormatProperties :
    Nat → VkImageType → VkImageTiling → Nat → Nat → VkResult × VkImageFormatProperties
  physicalDeviceProperties : VkPhysicalDeviceProperties2
  physicalDeviceProperties12 : VkPhysicalDeviceVulkan12Properties

/-- Returns true if "a" is superset of "b" (source helper `isSuperset`). -/
def isSuperset (a b : Nat) : Bool :=
  (a &&& b) == b

/-- `SampleCountTestInstance::getColorSampleCounts`. -/
def getColorSampleCounts (fo : FormatOracle) (caseDef : CaseDef)
    (physicalDeviceProperties : VkPhysicalDeviceProperties2)
    (physicalDeviceProperties12 : VkPhysicalDeviceVulkan12Properties) : Nat :=
  if !(fo.isCompressedFormat caseDef.format) then
    if isFloatFormat fo caseDef.format || isSnormFormat fo caseDef.format
        || isUnormFormat fo caseDef.format then
      physicalDeviceProperties.properties.limits.framebufferColorSampleCounts
    else if isIntFormat fo caseDef.format || isUintFormat fo caseDef.format then
      physicalDeviceProperties12.framebufferIntegerColorSampleCounts
    else
      0
  else
    0

/-- `SampleCountTestInstance::getDepthStencilSampleCounts`.  The source
compares `mapVkFormat(format).order` with `tcu::TextureFormat::D` and with
`tcu::TextureFormat::S` exactly; a combined depth+stencil order `DS` matches
neither comparison and falls through to `return 0`. -/
def getDepthStencilSampleCounts (fo : FormatOracle) (caseDef : CaseDef)
    (physicalDeviceProperties : VkPhysicalDeviceProperties2) : Nat :=
  if !(fo.isCompressedFormat caseDef.format) then
    if fo.mapVkFormatOrder caseDef.format = ChannelOrder.D then
      physicalDeviceProperties.properties.limits.framebufferDepthSampleCounts
    else if fo.mapVkFormatOrder caseDef.format = ChannelOrder.S then
      physicalDeviceProperties.properties.limits.framebufferStencilSampleCounts
    else
      0
  else
    0

/-- `SampleCountTestInstance::getSampledSampleCounts`.  In the source the
color-aspect branch and the depth-aspect branch both `return` immediately, so
the trailing integer-format check runs only when neither of them fired, i.e.
only when the channel order is `S`; the nested `else` chain reproduces that
control flow. -/
def getSampledSampleCounts (fo : FormatOracle) (caseDef : CaseDef)
    (physicalDeviceProperties : VkPhysicalDeviceProperties2) : Nat :=
  if !(fo.isCompressedFormat caseDef.format) && !(fo.isYCbCrFormat caseDef.format) then
    if fo.mapVkFormatOrder caseDef.format ≠ ChannelOrder.D ∧
        fo.mapVkFormatOrder caseDef.format ≠ ChannelOrder.DS ∧
        fo.mapVkFormatOrder caseDef.format ≠ ChannelOrder.S then
      physicalDeviceProperties.properties.limits.sampledImageColorSampleCounts
    else if fo.mapVkFormatOrder caseDef.format = ChannelOrder.D ∨
        fo.mapVkFormatOrder caseDef.format = ChannelOrder.DS then
      physicalDeviceProperties.properties.limits.sampledImageDepthSampleCounts
    else if isIntFormat fo caseDef.format || isUintFormat fo caseDef.format then
      physicalDeviceProperties.properties.limits.sampledImageIntegerSampleCounts
    else
      0
  else
    0

/-- `SampleCountTestInstance::getStorageSampleCounts`. -/
def getStorageSampleCounts (physicalDeviceProperties : VkPhysicalDeviceProperties2) : Nat :=
  physicalDeviceProperties.properties.limits.storageImageSampleCounts

/-- Modelled from the spec: a concrete instance of the classification oracle
for the formats used as concrete inputs, following the Vulkan format
definitions: 1 = `R4G4_UNORM_PACK8` (color, unorm), 37 = `R8G8B8A8_UNORM`
(color, unorm), 41 = `R8G8B8A8_UINT` (color, unsigned integer),
124 = `D16_UNORM` (order D), 127 = `S8_UINT` (order S, unsigned integer),
129 = `D24_UNORM_S8_UINT` (order DS), 131 = `BC1_RGB_UNORM_BLOCK`
(compressed), 1000156000 = `G8B8G8R8_422_UNORM` (YCbCr). -/
def mdlOracle : FormatOracle where
  isCompressedFormat := fun format => format == 131
  isYCbCrFormat := fun format => format == 1000156000
  mapVkFormatOrder := fun format =>
    if format = 124 then ChannelOrder.D
    else if format = 127 then ChannelOrder.S
    else if format = 129 then ChannelOrder.DS
    else if format = 1 then ChannelOrder.RG
    else ChannelOrder.RGBA
  getTextureChannelClass := fun format =>
    if format = 41 ∨ format = 127 then TextureChannelClass.UNSIGNED_INTEGER
    else if format = 129 then TextureChannelClass.OTHER
    else TextureChannelClass.UNSIGNED_FIXED_POINT

/-- Concrete limits used by the evaluation theorems for C1 and C2: every
limit field holds a distinct mask so that the selected field is identifiable. -/
def mdlLimits : VkPhysicalDeviceLimits where
  framebufferColorSampleCounts := 15
  framebufferDepthSampleCounts := 7
  framebufferStencilSampleCounts := 5
  sampledImageColorSampleCounts := 6
  sampledImageDepthSampleCounts := 3
  sampledImageIntegerSampleCounts := 1
  storageImageSampleCounts := 2

/-- The concrete `VkPhysicalDeviceProperties2` wrapping `mdlLimits`. -/
def mdlProps : VkPhysicalDeviceProperties2 where
  properties := { limits := mdlLimits }

/-- Claim C1: for a non-compressed, non-YCbCr unsigned-integer color format
(`R8G8B8A8_UINT`), `getSampledSampleCounts` returns the sampled-image-color
limit, not the sampled-image-integer limit: the color-aspect branch returns
early, so the integer-format branch never overwrites it.  This evaluates the
code at the failing input of the claim. -/
theorem c1_integer_color_eval :
    isUintFormat mdlOracle 41 = true ∧
    mdlOracle.isCompressedFormat 41 = false ∧
    mdlOracle.isYCbCrFormat 41 = false ∧
    mdlOracle.mapVkFormatOrder 41 = ChannelOrder.RGBA ∧
    getSampledSampleCounts mdlOracle
      ⟨41, VkImageType.VK_IMAGE_TYPE_2D, VkImageTiling.VK_IMAGE_TILING_OPTIMAL,
        VK_IMAGE_USAGE_SAMPLED_BIT⟩ mdlProps =
      mdlLimits.sampledImageColorSampleCounts ∧
    mdlLimits.sampledImageColorSampleCounts ≠ mdlLimits.sampledImageIntegerSampleCounts := by
  decide

/-- Claim C2: for a non-compressed combined depth+stencil format
(`D24_UNORM_S8_UINT`, channel order `DS`), `getDepthStencilSampleCounts`
returns 0, not the framebuffer-depth limit: the code compares the order with
`D` and `S` exactly, so `DS` falls through.  This evaluates the code at the
failing input of the claim. -/
theorem c2_depth_stencil_eval :
    mdlOracle.isCompressedFormat 129 = false ∧
    mdlOracle.mapVkFormatOrder 129 = ChannelOrder.DS ∧
    getDepthStencilSampleCounts mdlOracle
      ⟨129, VkImageType.VK_IMAGE_TYPE_2D, VkImageTiling.VK_IMAGE_TILING_OPTIMAL,
        VK_IMAGE_USAGE_DEPTH_STENCIL_ATTACHMENT_BIT⟩ mdlProps = 0 ∧
    mdlLimits.framebufferDepthSampleCounts ≠ 0 := by
  decide

/-- The list of expected per-usage supersets collected by
`SampleCountTestInstance::checkUsageFlags`: one entry per usage bit set in the
case's usage flags, pushed in the fixed order color attachment, depth/stencil
attachment, sampled, storage (each `if (usageFlags & BIT)` push). -/
def expectedSupersets (fo : FormatOracle) (ctx : Context) (caseDef : CaseDef) : List Nat :=
  (if caseDef.usageFlags &&& VK_IMAGE_USAGE_COLOR_ATTACHMENT_BIT ≠ 0 then
    [getColorSampleCounts fo caseDef ctx.physicalDeviceProperties ctx.physicalDeviceProperties12]
  else []) ++
  (if caseDef.usageFlags &&& VK_IMAGE_USAGE_DEPTH_STENCIL_ATTACHMENT_BIT ≠ 0 then
    [getDepthStencilSampleCounts fo caseDef ctx.physicalDeviceProperties]
  else []) ++
  (if caseDef.usageFlags &&& VK_IMAGE_USAGE_SAMPLED_BIT ≠ 0 then
    [getSampledSampleCounts fo caseDef ctx.physicalDeviceProperties]
  else []) ++
  (if caseDef.usageFlags &&& VK_IMAGE_USAGE_STORAGE_BIT ≠ 0 then
    [getStorageSampleCounts ctx.physicalDeviceProperties]
  else [])

/-- `SampleCountTestInstance::checkUsageFlags`: reject non-success queries,
degenerate to equality with the single-sample set when the optimal-tiling
features carry neither attachment bit, and otherwise check that the reported
set is a superset of the fold (`expectedFlags = expectedSupersets[0]` followed
by `expectedFlags &= flags` over the whole vector). -/
def checkUsageFlags (fo : FormatOracle) (ctx : Context) (caseDef : CaseDef) : Bool :=
  let formatProperties := ctx.getPhysicalDeviceFormatProperties caseDef.format
  let imageFormatQuery := ctx.getPhysicalDeviceImageFormatProperties caseDef.format
    caseDef.imageType caseDef.imageTiling caseDef.usageFlags 0
  if imageFormatQuery.fst ≠ VkResult.VK_SUCCESS then
    false
  else if formatProperties.optimalTilingFeatures &&&
      (VK_FORMAT_FEATURE_COLOR_ATTACHMENT_BIT ||| VK_FORMAT_FEATURE_DEPTH_STENCIL_ATTACHMENT_BIT)
      = 0 then
    imageFormatQuery.snd.sampleCounts == VK_SAMPLE_COUNT_1_BIT
  else
    match expectedSupersets fo ctx caseDef with
    | [] => isSuperset imageFormatQuery.snd.sampleCounts VK_SAMPLE_COUNT_1_BIT
    | e :: rest => isSuperset imageFormatQuery.snd.sampleCounts
        ((e :: rest).foldl (fun a b => a &&& b) e)

/-- The expected sample-count mask the usage-flags check compares against once
the feature gate has passed: the single-sample set for an empty contribution
list, otherwise the fold of `checkUsageFlags` over the collected supersets. -/
def expectedSampleCounts (fo : FormatOracle) (ctx : Context) (caseDef : CaseDef) : Nat :=
  match expectedSupersets fo ctx caseDef with
  | [] => VK_SAMPLE_COUNT_1_BIT
  | e :: rest => (e :: rest).foldl (fun a b => a &&& b) e

/-- `SampleCountTestInstance::checkYCBCRConversion` (queries with usage 0 and
create flags 0; any non-success result or a set other than exactly the
single-sample set fails). -/
def checkYCBCRConversion (ctx : Context) (caseDef : CaseDef) : Bool :=
  let imageFormatQuery := ctx.getPhysicalDeviceImageFormatProperties caseDef.format
    caseDef.imageType caseDef.imageTiling 0 0
  if imageFormatQuery.fst ≠ VkResult.VK_SUCCESS ∨
      imageFormatQuery.snd.sampleCounts ≠ VK_SAMPLE_COUNT_1_BIT then
    false
  else
    true

/-- `SampleCountTestInstance::checkLinearTilingAndNot2DImageType`. -/
def checkLinearTilingAndNot2DImageType (ctx : Context) (caseDef : CaseDef) : Bool :=
  let imageFormatQuery := ctx.getPhysicalDeviceImageFormatProperties caseDef.format
    caseDef.imageType caseDef.imageTiling 0 0
  if imageFormatQuery.fst ≠ VkResult.VK_SUCCESS then
    false
  else if imageFormatQuery.snd.sampleCounts = VK_SAMPLE_COUNT_1_BIT ∧
      (caseDef.imageTiling = VkImageTiling.VK_IMAGE_TILING_LINEAR ∨
        caseDef.imageType ≠ VkImageType.VK_IMAGE_TYPE_2D) then
    true
  else
    false

/-- `SampleCountTestInstance::checkCubeCompatible` (the query passes the
cube-compatible create flag). -/
def checkCubeCompatible (ctx : Context) (caseDef : CaseDef) : Bool :=
  let imageFormatQuery := ctx.getPhysicalDeviceImageFormatProperties caseDef.format
    caseDef.imageType caseDef.imageTiling 0 VK_IMAGE_CREATE_CUBE_COMPATIBLE_BIT
  if imageFormatQuery.fst ≠ VkResult.VK_SUCCESS ∨
      imageFormatQuery.snd.sampleCounts ≠ VK_SAMPLE_COUNT_1_BIT then
    false
  else
    true

/-- `SampleCountTestInstance::checkOptimalTilingFeatures`. -/
def checkOptimalTilingFeatures (ctx : Context) (caseDef : CaseDef) : Bool :=
  let formatProperties := ctx.getPhysicalDeviceFormatProperties caseDef.format
  let imageFormatQuery := ctx.getPhysicalDeviceImageFormatProperties caseDef.format
    caseDef.imageType caseDef.imageTiling 0 0
  if imageFormatQuery.fst ≠ VkResult.VK_SUCCESS then
    false
  else if formatProperties.optimalTilingFeatures &&& VK_FORMAT_FEATURE_COLOR_ATTACHMENT_BIT = 0 ∧
      formatProperties.optimalTilingFeatures &&& VK_FORMAT_FEATURE_DEPTH_STENCIL_ATTACHMENT_BIT = 0 ∧
      imageFormatQuery.snd.sampleCounts ≠ VK_SAMPLE_COUNT_1_BIT then
    false
  else
    true

/-- `SampleCountTestInstance::checkOneSampleCountPresent`. -/
def checkOneSampleCountPresent (ctx : Context) (caseDef : CaseDef) : Bool :=
  let imageFormatQuery := ctx.getPhysicalDeviceImageFormatProperties caseDef.format
    caseDef.imageType caseDef.imageTiling 0 0
  if imageFormatQuery.fst ≠ VkResult.VK_SUCCESS then
    false
  else if imageFormatQuery.snd.sampleCounts &&& VK_SAMPLE_COUNT_1_BIT = 0 then
    false
  else
    true

/-- The six subtest variants (`SampleCountTestInstance::SampleCountsSubtests`). -/
inductive SampleCountsSubtests where
  | LINEAR_TILING_AND_NOT_2D_IMAGE_TYPE
  | CUBE_COMPATIBLE_SUBTEST
  | OPTIMAL_TILING_FEATURES_SUBTEST
  | YCBCR_CONVERSION_SUBTEST
  | USAGE_FLAGS_SUBTEST
  | ONE_SAMPLE_COUNT_PRESENT_SUBTEST
deriving DecidableEq

/-- `SampleCountTestInstance::iterate`, as the boolean dispatch over the
assigned variant's check. -/
def runSubtest (fo : FormatOracle) (ctx : Context) (caseDef : CaseDef) :
    SampleCountsSubtests → Bool
  | .LINEAR_TILING_AND_NOT_2D_IMAGE_TYPE => checkLinearTilingAndNot2DImageType ctx caseDef
  | .CUBE_COMPATIBLE_SUBTEST => checkCubeCompatible ctx caseDef
  | .OPTIMAL_TILING_FEATURES_SUBTEST => checkOptimalTilingFeatures ctx caseDef
  | .YCBCR_CONVERSION_SUBTEST => checkYCBCRConversion ctx caseDef
  | .USAGE_FLAGS_SUBTEST => checkUsageFlags fo ctx caseDef
  | .ONE_SAMPLE_COUNT_PRESENT_SUBTEST => checkOneSampleCountPresent ctx caseDef

/-- `SampleCountTest::checkSupport`: true when the support probe (issued with
the case's usage flags and no create flags) returns
`VK_ERROR_FORMAT_NOT_SUPPORTED`, i.e. when the case throws
`NotSupportedError` and is excluded as not applicable. -/
def checkSupportThrows (ctx : Context) (caseDef : CaseDef) : Bool :=
  (ctx.getPhysicalDeviceImageFormatProperties caseDef.format caseDef.imageType
      caseDef.imageTiling caseDef.usageFlags 0).fst
    == VkResult.VK_ERROR_FORMAT_NOT_SUPPORTED

/-- Outcome of one case as seen by the external runner: pass, fail, or
excluded as not applicable when `checkSupport` throws `NotSupportedError`. -/
inductive CaseOutcome where
  | pass
  | fail
  | notSupported
deriving DecidableEq

/-- The runner flow for one case: `SampleCountTest::checkSupport` first (a
`NotSupportedError` converts the case to not-applicable), then
`SampleCountTestInstance::iterate` turning the check's boolean into
pass or fail. -/
def runCase (fo : FormatOracle) (ctx : Context) (caseDef : CaseDef)
    (subtest : SampleCountsSubtests) : CaseOutcome :=
  if checkSupportThrows ctx caseDef then
    CaseOutcome.notSupported
  else if runSubtest fo ctx caseDef subtest then
    CaseOutcome.pass
  else
    CaseOutcome.fail

/-- The capability query each variant's own check issues, with the usage and
create flags the source passes at that call site: the cube-compatible check
queries with the cube-compatible create flag, the usage-flags check with the
case's usage flags, and every other check with usage 0 and create flags 0. -/
def subtestQuery (ctx : Context) (caseDef : CaseDef) :
    SampleCountsSubtests → VkResult × VkImageFormatProperties
  | .CUBE_COMPATIBLE_SUBTEST =>
      ctx.getPhysicalDeviceImageFormatProperties caseDef.format caseDef.imageType
        caseDef.imageTiling 0 VK_IMAGE_CREATE_CUBE_COMPATIBLE_BIT
  | .USAGE_FLAGS_SUBTEST =>
      ctx.getPhysicalDeviceImageFormatProperties caseDef.format caseDef.imageType
        caseDef.imageTiling caseDef.usageFlags 0
  | _ =>
      ctx.getPhysicalDeviceImageFormatProperties caseDef.format caseDef.imageType
        caseDef.imageTiling 0 0

/-- The union of the four usage bits the combinator inspects. -/
def usageFlagsMask : Nat :=
  VK_IMAGE_USAGE_COLOR_ATTACHMENT_BIT ||| VK_IMAGE_USAGE_DEPTH_STENCIL_ATTACHMENT_BIT |||
    VK_IMAGE_USAGE_SAMPLED_BIT ||| VK_IMAGE_USAGE_STORAGE_BIT

lemma foldl_and_testBit (l : List Nat) (a k : Nat) :
    (l.foldl (fun x y => x &&& y) a).testBit k = (a.testBit k && l.all (fun x => x.testBit k)) := by
  induction l generalizing a with
  | nil => simp
  | cons e rest ih =>
      simp only [List.foldl_cons, List.all_cons, ih, Nat.testBit_and]
      cases a.testBit k <;> cases e.testBit k <;> simp

lemma isSuperset_true_iff (a b : Nat) :
    isSuperset a b = true ↔ ∀ k, b.testBit k = true → a.testBit k = true := by
  unfold isSuperset
  rw [beq_iff_eq]
  constructor
  · intro h k hb
    have := congrArg (fun n => Nat.testBit n k) h
    simp only [Nat.testBit_and, hb, Bool.and_true] at this
    exact this
  · intro h
    apply Nat.eq_of_testBit_eq
    intro k
    rw [Nat.testBit_and]
    cases hb : b.testBit k
    · simp
    · simp [h k hb]

lemma exists_testBit_of_ne_zero {n : Nat} (h : n ≠ 0) : ∃ k, n.testBit k = true := by
  by_contra hc
  push_neg at hc
  exact h (Nat.eq_of_testBit_eq fun i => by
    rw [Nat.zero_testBit]
    exact Bool.eq_false_iff.mpr (hc i))

lemma and_mask_of_and_eq (u m v c : Nat) (h : u &&& m = v) (hc : m &&& c = c) :
    u &&& c = v &&& c := by
  calc u &&& c = u &&& (m &&& c) := by rw [hc]
    _ = u &&& m &&& c := (Nat.and_assoc u m c).symm
    _ = v &&& c := by rw [h]

lemma and_ne_zero_mono (U V c : Nat) (h : U &&& V = U) (hc : U &&& c ≠ 0) : V &&& c ≠ 0 := by
  obtain ⟨k, hk⟩ := exists_testBit_of_ne_zero hc
  rw [Nat.testBit_and] at hk
  have hUk : U.testBit k = true := by
    cases hu : U.testBit k <;> simp [hu] at hk ⊢
  have hck : c.testBit k = true := by
    cases hcb : c.testBit k <;> simp [hcb] at hk ⊢
  have hVk : V.testBit k = true := by
    have := congrArg (fun n => Nat.testBit n k) h
    simp only [Nat.testBit_and, hUk, Bool.true_and] at this
    exact this
  intro h0
  have := congrArg (fun n => Nat.testBit n k) h0
  simp [Nat.testBit_and, hVk, hck, Nat.zero_testBit] at this

lemma or_ne_zero_cases {a b : Nat} (h : a ||| b ≠ 0) : a ≠ 0 ∨ b ≠ 0 := by
  by_contra hc
  push_neg at hc
  rw [hc.1, hc.2] at h
  exact h rfl

lemma usage_bit_cases {u : Nat} (h : u &&& usageFlagsMask ≠ 0) :
    u &&& VK_IMAGE_USAGE_COLOR_ATTACHMENT_BIT ≠ 0 ∨
    u &&& VK_IMAGE_USAGE_DEPTH_STENCIL_ATTACHMENT_BIT ≠ 0 ∨
    u &&& VK_IMAGE_USAGE_SAMPLED_BIT ≠ 0 ∨
    u &&& VK_IMAGE_USAGE_STORAGE_BIT ≠ 0 := by
  unfold usageFlagsMask at h
  rw [Nat.and_or_distrib_left, Nat.and_or_distrib_left, Nat.and_or_distrib_left] at h
  rcases or_ne_zero_cases h with h3 | h4
  · rcases or_ne_zero_cases h3 with h1 | h2
    · rcases or_ne_zero_cases h1 with hc | hd
      · exact Or.inl hc
      · exact Or.inr (Or.inl hd)
    · exact Or.inr (Or.inr (Or.inl h2))
  · exact Or.inr (Or.inr (Or.inr h4))

lemma expectedSupersets_ne_nil (fo : FormatOracle) (ctx : Context) (caseDef : CaseDef)
    (h : caseDef.usageFlags &&& usageFlagsMask ≠ 0) :
    expectedSupersets fo ctx caseDef ≠ [] := by
  unfold expectedSupersets
  rcases usage_bit_cases h with hc | hd | hs | ht
  · simp [hc]
  · simp [hd]
  · simp [hs]
  · simp [ht]

lemma expectedSampleCounts_testBit (fo : FormatOracle) (ctx : Context) (caseDef : CaseDef)
    (h : expectedSupersets fo ctx caseDef ≠ []) (k : Nat) :
    (expectedSampleCounts fo ctx caseDef).testBit k =
      (expectedSupersets fo ctx caseDef).all (fun x => x.testBit k) := by
  unfold expectedSampleCounts
  cases hl : expectedSupersets fo ctx caseDef with
  | nil => exact absurd hl h
  | cons e rest =>
      simp only [List.foldl_cons, foldl_and_testBit, Nat.testBit_and, List.all_cons]
      cases e.testBit k <;> simp

lemma checkUsageFlags_eq_superset (fo : FormatOracle) (ctx : Context) (caseDef : CaseDef)
    (hs : (ctx.getPhysicalDeviceImageFormatProperties caseDef.format caseDef.imageType
      caseDef.imageTiling caseDef.usageFlags 0).fst = VkResult.VK_SUCCESS)
    (hg : (ctx.getPhysicalDeviceFormatProperties caseDef.format).optimalTilingFeatures &&&
      (VK_FORMAT_FEATURE_COLOR_ATTACHMENT_BIT ||| VK_FORMAT_FEATURE_DEPTH_STENCIL_ATTACHMENT_BIT)
      ≠ 0) :
    checkUsageFlags fo ctx caseDef =
      isSuperset (ctx.getPhysicalDeviceImageFormatProperties caseDef.format caseDef.imageType
        caseDef.imageTiling caseDef.usageFlags 0).snd.sampleCounts
        (expectedSampleCounts fo ctx caseDef) := by
  unfold checkUsageFlags expectedSampleCounts
  simp only [hs, ne_eq, not_true_eq_false, if_false, if_neg hg]
  cases hl : expectedSupersets fo ctx caseDef with
  | nil => simp
  | cons e rest => simp

/-- A concrete capability snapshot whose optimal-tiling features carry the
color-attachment bit, whose image-format query succeeds with reported
sample-count set 15 = {1,2,4,8}, and whose limits are `mdlLimits`. -/
def mdlCtx : Context where
  getPhysicalDeviceFormatProperties := fun _ => ⟨0, VK_FORMAT_FEATURE_COLOR_ATTACHMENT_BIT, 0⟩
  getPhysicalDeviceImageFormatProperties := fun _ _ _ _ _ => (VkResult.VK_SUCCESS, ⟨15⟩)
  physicalDeviceProperties := mdlProps
  physicalDeviceProperties12 := ⟨9⟩

/-- A concrete capability snapshot whose optimal-tiling features lack both
attachment bits, with a succeeding query reporting exactly the single-sample
set. -/
def mdlCtxGate : Context where
  getPhysicalDeviceFormatProperties := fun _ => ⟨0, 0, 0⟩
  getPhysicalDeviceImageFormatProperties := fun _ _ _ _ _ => (VkResult.VK_SUCCESS, ⟨1⟩)
  physicalDeviceProperties := mdlProps
  physicalDeviceProperties12 := ⟨9⟩

/-- Claim C5: when the optimal-tiling features of the case's format contain
neither the color-attachment bit nor the depth/stencil-attachment bit, the
usage-flags check passes exactly when the device-reported sample-count set
equals the single-sample set, for every usage-flag combination; the gate is
decided before any per-usage derivation contributes. -/
theorem c5_feature_gate (fo : FormatOracle) (ctx : Context) (caseDef : CaseDef)
    (hs : (ctx.getPhysicalDeviceImageFormatProperties caseDef.format caseDef.imageType
      caseDef.imageTiling caseDef.usageFlags 0).fst = VkResult.VK_SUCCESS)
    (hg : (ctx.getPhysicalDeviceFormatProperties caseDef.format).optimalTilingFeatures &&&
      (VK_FORMAT_FEATURE_COLOR_ATTACHMENT_BIT ||| VK_FORMAT_FEATURE_DEPTH_STENCIL_ATTACHMENT_BIT)
      = 0) :
    checkUsageFlags fo ctx caseDef = true ↔
      (ctx.getPhysicalDeviceImageFormatProperties caseDef.format caseDef.imageType
        caseDef.imageTiling caseDef.usageFlags 0).snd.sampleCounts = VK_SAMPLE_COUNT_1_BIT := by
  unfold checkUsageFlags
  simp [hs, hg]

/-- Witness for C5 at a concrete snapshot: features 0, reported set {1},
usage flags covering all four bits. -/
theorem c5_feature_gate_witness :
    checkUsageFlags mdlOracle mdlCtxGate
      ⟨37, VkImageType.VK_IMAGE_TYPE_2D, VkImageTiling.VK_IMAGE_TILING_OPTIMAL,
        usageFlagsMask⟩ = true :=
  (c5_feature_gate mdlOracle mdlCtxGate
    ⟨37, VkImageType.VK_IMAGE_TYPE_2D, VkImageTiling.VK_IMAGE_TILING_OPTIMAL,
      usageFlagsMask⟩ rfl (by decide)).mpr rfl

/-- Claim C10 (implicit): a per-usage derivation that returns 0 is still
included in the intersection rather than skipped, so whenever the feature gate
passes, the query succeeds and some contributing per-usage result is 0, the
combined expected mask is 0 and the superset check passes whatever set the
device reports. -/
theorem c10_zero_result_included (fo : FormatOracle) (ctx : Context) (caseDef : CaseDef)
    (hs : (ctx.getPhysicalDeviceImageFormatProperties caseDef.format caseDef.imageType
      caseDef.imageTiling caseDef.usageFlags 0).fst = VkResult.VK_SUCCESS)
    (hg : (ctx.getPhysicalDeviceFormatProperties caseDef.format).optimalTilingFeatures &&&
      (VK_FORMAT_FEATURE_COLOR_ATTACHMENT_BIT ||| VK_FORMAT_FEATURE_DEPTH_STENCIL_ATTACHMENT_BIT)
      ≠ 0)
    (h0 : 0 ∈ expectedSupersets fo ctx caseDef) :
    expectedSampleCounts fo ctx caseDef = 0 ∧ checkUsageFlags fo ctx caseDef = true := by
  have hne : expectedSupersets fo ctx caseDef ≠ [] := by
    intro h
    rw [h] at h0
    exact absurd h0 (List.not_mem_nil 0)
  have hzero : expectedSampleCounts fo ctx caseDef = 0 := by
    apply Nat.eq_of_testBit_eq
    intro k
    rw [expectedSampleCounts_testBit fo ctx caseDef hne k, Nat.zero_testBit]
    apply Bool.eq_false_iff.mpr
    intro hall
    rw [List.all_eq_true] at hall
    have hbit := hall 0 h0
    rw [Nat.zero_testBit] at hbit
    exact Bool.false_ne_true hbit
  refine ⟨hzero, ?_⟩
  rw [checkUsageFlags_eq_superset fo ctx caseDef hs hg, hzero]
  unfold isSuperset
  simp

/-- Witness for C10: color-attachment usage on the compressed format 131 makes
`getColorSampleCounts` contribute 0, so the check passes although the device
reports the set 15. -/
theorem c10_zero_result_included_witness :
    expectedSampleCounts mdlOracle mdlCtx
        ⟨131, VkImageType.VK_IMAGE_TYPE_2D, VkImageTiling.VK_IMAGE_TILING_OPTIMAL,
          VK_IMAGE_USAGE_COLOR_ATTACHMENT_BIT⟩ = 0 ∧
    checkUsageFlags mdlOracle mdlCtx
        ⟨131, VkImageType.VK_IMAGE_TYPE_2D, VkImageTiling.VK_IMAGE_TILING_OPTIMAL,
          VK_IMAGE_USAGE_COLOR_ATTACHMENT_BIT⟩ = true :=
  c10_zero_result_included mdlOracle mdlCtx
    ⟨131, VkImageType.VK_IMAGE_TYPE_2D, VkImageTiling.VK_IMAGE_TILING_OPTIMAL,
      VK_IMAGE_USAGE_COLOR_ATTACHMENT_BIT⟩ rfl (by decide) (by decide)

/-- Claim C3: in the usage-flags combinator, every set usage bit among the
four contributes its per-usage result and nothing else is collected: with the
capability query succeeding and the feature gate passed, an empty usage set
yields the expected set {1}; exactly one contributing bit yields that bit's
unmodified per-usage result; and in general (one or more contributing bits)
the check is the superset comparison against the bitwise AND of all
contributing per-bit results. -/
theorem c3_usage_flags_combinator (fo : FormatOracle) (ctx : Context) (caseDef : CaseDef)
    (hs : (ctx.getPhysicalDeviceImageFormatProperties caseDef.format caseDef.imageType
      caseDef.imageTiling caseDef.usageFlags 0).fst = VkResult.VK_SUCCESS)
    (hg : (ctx.getPhysicalDeviceFormatProperties caseDef.format).optimalTilingFeatures &&&
      (VK_FORMAT_FEATURE_COLOR_ATTACHMENT_BIT ||| VK_FORMAT_FEATURE_DEPTH_STENCIL_ATTACHMENT_BIT)
      ≠ 0) :
    (caseDef.usageFlags &&& usageFlagsMask = 0 →
      expectedSupersets fo ctx caseDef = [] ∧
      expectedSampleCounts fo ctx caseDef = VK_SAMPLE_COUNT_1_BIT ∧
      checkUsageFlags fo ctx caseDef =
        isSuperset (ctx.getPhysicalDeviceImageFormatProperties caseDef.format caseDef.imageType
          caseDef.imageTiling caseDef.usageFlags 0).snd.sampleCounts VK_SAMPLE_COUNT_1_BIT) ∧
    (caseDef.usageFlags &&& usageFlagsMask = VK_IMAGE_USAGE_COLOR_ATTACHMENT_BIT →
      expectedSampleCounts fo ctx caseDef =
        getColorSampleCounts fo caseDef ctx.physicalDeviceProperties
          ctx.physicalDeviceProperties12 ∧
      checkUsageFlags fo ctx caseDef =
        isSuperset (ctx.getPhysicalDeviceImageFormatProperties caseDef.format caseDef.imageType
          caseDef.imageTiling caseDef.usageFlags 0).snd.sampleCounts
          (getColorSampleCounts fo caseDef ctx.physicalDeviceProperties
            ctx.physicalDeviceProperties12)) ∧
    (caseDef.usageFlags &&& usageFlagsMask = VK_IMAGE_USAGE_DEPTH_STENCIL_ATTACHMENT_BIT →
      expectedSampleCounts fo ctx caseDef =
        getDepthStencilSampleCounts fo caseDef ctx.physicalDeviceProperties ∧
      checkUsageFlags fo ctx caseDef =
        isSuperset (ctx.getPhysicalDeviceImageFormatProperties caseDef.format caseDef.imageType
          caseDef.imageTiling caseDef.usageFlags 0).snd.sampleCounts
          (getDepthStencilSampleCounts fo caseDef ctx.physicalDeviceProperties)) ∧
    (caseDef.usageFlags &&& usageFlagsMask = VK_IMAGE_USAGE_SAMPLED_BIT →
      expectedSampleCounts fo ctx caseDef =
        getSampledSampleCounts fo caseDef ctx.physicalDeviceProperties ∧
      checkUsageFlags fo ctx caseDef =
        isSuperset (ctx.getPhysicalDeviceImageFormatProperties caseDef.format caseDef.imageType
          caseDef.imageTiling caseDef.usageFlags 0).snd.sampleCounts
          (getSampledSampleCounts fo caseDef ctx.physicalDeviceProperties)) ∧
    (caseDef.usageFlags &&& usageFlagsMask = VK_IMAGE_USAGE_STORAGE_BIT →
      expectedSampleCounts fo ctx caseDef =
        getStorageSampleCounts ctx.physicalDeviceProperties ∧
      checkUsageFlags fo ctx caseDef =
        isSuperset (ctx.getPhysicalDeviceImageFormatProperties caseDef.format caseDef.imageType
          caseDef.imageTiling caseDef.usageFlags 0).snd.sampleCounts
          (getStorageSampleCounts ctx.physicalDeviceProperties)) ∧
    (caseDef.usageFlags &&& usageFlagsMask ≠ 0 →
      checkUsageFlags fo ctx caseDef =
        isSuperset (ctx.getPhysicalDeviceImageFormatProperties caseDef.format caseDef.imageType
          caseDef.imageTiling caseDef.usageFlags 0).snd.sampleCounts
          (expectedSampleCounts fo ctx caseDef) ∧
      ∀ k, (expectedSampleCounts fo ctx caseDef).testBit k =
        (expectedSupersets fo ctx caseDef).all (fun x => x.testBit k)) := by
  refine ⟨?_, ?_, ?_, ?_, ?_, ?_⟩
  · intro h
    have hc := and_mask_of_and_eq caseDef.usageFlags usageFlagsMask 0
      VK_IMAGE_USAGE_COLOR_ATTACHMENT_BIT h (by decide)
    have hd := and_mask_of_and_eq caseDef.usageFlags usageFlagsMask 0
      VK_IMAGE_USAGE_DEPTH_STENCIL_ATTACHMENT_BIT h (by decide)
    have hsm := and_mask_of_and_eq caseDef.usageFlags usageFlagsMask 0
      VK_IMAGE_USAGE_SAMPLED_BIT h (by decide)
    have hst := and_mask_of_and_eq caseDef.usageFlags usageFlagsMask 0
      VK_IMAGE_USAGE_STORAGE_BIT h (by decide)
    rw [Nat.zero_and] at hc hd hsm hst
    have hlist : expectedSupersets fo ctx caseDef = [] := by
      unfold expectedSupersets
      rw [if_neg (by rw [hc]; simp), if_neg (by rw [hd]; simp),
        if_neg (by rw [hsm]; simp), if_neg (by rw [hst]; simp)]
      simp
    have hexp : expectedSampleCounts fo ctx caseDef = VK_SAMPLE_COUNT_1_BIT := by
      unfold expectedSampleCounts
      rw [hlist]
    refine ⟨hlist, hexp, ?_⟩
    rw [checkUsageFlags_eq_superset fo ctx caseDef hs hg, hexp]
  · intro h
    have hc := and_mask_of_and_eq caseDef.usageFlags usageFlagsMask
      VK_IMAGE_USAGE_COLOR_ATTACHMENT_BIT VK_IMAGE_USAGE_COLOR_ATTACHMENT_BIT h (by decide)
    have hd := and_mask_of_and_eq caseDef.usageFlags usageFlagsMask
      VK_IMAGE_USAGE_COLOR_ATTACHMENT_BIT VK_IMAGE_USAGE_DEPTH_STENCIL_ATTACHMENT_BIT h (by decide)
    have hsm := and_mask_of_and_eq caseDef.usageFlags usageFlagsMask
      VK_IMAGE_USAGE_COLOR_ATTACHMENT_BIT VK_IMAGE_USAGE_SAMPLED_BIT h (by decide)
    have hst := and_mask_of_and_eq caseDef.usageFlags usageFlagsMask
      VK_IMAGE_USAGE_COLOR_ATTACHMENT_BIT VK_IMAGE_USAGE_STORAGE_BIT h (by decide)
    rw [Nat.and_self] at hc
    rw [show VK_IMAGE_USAGE_COLOR_ATTACHMENT_BIT &&&
      VK_IMAGE_USAGE_DEPTH_STENCIL_ATTACHMENT_BIT = 0 from by decide] at hd
    rw [show VK_IMAGE_USAGE_COLOR_ATTACHMENT_BIT &&& VK_IMAGE_USAGE_SAMPLED_BIT = 0
      from by decide] at hsm
    rw [show VK_IMAGE_USAGE_COLOR_ATTACHMENT_BIT &&& VK_IMAGE_USAGE_STORAGE_BIT = 0
      from by decide] at hst
    have hlist : expectedSupersets fo ctx caseDef =
        [getColorSampleCounts fo caseDef ctx.physicalDeviceProperties
          ctx.physicalDeviceProperties12] := by
      unfold expectedSupersets
      rw [if_pos (by rw [hc]; decide), if_neg (by rw [hd]; simp),
        if_neg (by rw [hsm]; simp), if_neg (by rw [hst]; simp)]
      simp
    have hexp : expectedSampleCounts fo ctx caseDef =
        getColorSampleCounts fo caseDef ctx.physicalDeviceProperties
          ctx.physicalDeviceProperties12 := by
      unfold expectedSampleCounts
      rw [hlist]
      simp [Nat.and_self]
    exact ⟨hexp, by rw [checkUsageFlags_eq_superset fo ctx caseDef hs hg, hexp]⟩
  · intro h
    have hc := and_mask_of_and_eq caseDef.usageFlags usageFlagsMask
      VK_IMAGE_USAGE_DEPTH_STENCIL_ATTACHMENT_BIT VK_IMAGE_USAGE_COLOR_ATTACHMENT_BIT h (by decide)
    have hd := and_mask_of_and_eq caseDef.usageFlags usageFlagsMask
      VK_IMAGE_USAGE_DEPTH_STENCIL_ATTACHMENT_BIT VK_IMAGE_USAGE_DEPTH_STENCIL_ATTACHMENT_BIT h
      (by decide)
    have hsm := and_mask_of_and_eq caseDef.usageFlags usageFlagsMask
      VK_IMAGE_USAGE_DEPTH_STENCIL_ATTACHMENT_BIT VK_IMAGE_USAGE_SAMPLED_BIT h (by decide)
    have hst := and_mask_of_and_eq caseDef.usageFlags usageFlagsMask
      VK_IMAGE_USAGE_DEPTH_STENCIL_ATTACHMENT_BIT VK_IMAGE_USAGE_STORAGE_BIT h (by decide)
    rw [Nat.and_self] at hd
    rw [show VK_IMAGE_USAGE_DEPTH_STENCIL_ATTACHMENT_BIT &&&
      VK_IMAGE_USAGE_COLOR_ATTACHMENT_BIT = 0 from by decide] at hc
    rw [show VK_IMAGE_USAGE_DEPTH_STENCIL_ATTACHMENT_BIT &&& VK_IMAGE_USAGE_SAMPLED_BIT = 0
      from by decide] at hsm
    rw [show VK_IMAGE_USAGE_DEPTH_STENCIL_ATTACHMENT_BIT &&& VK_IMAGE_USAGE_STORAGE_BIT = 0
      from by decide] at hst
    have hlist : expectedSupersets fo ctx caseDef =
        [getDepthStencilSampleCounts fo caseDef ctx.physicalDeviceProperties] := by
      unfold expectedSupersets
      rw [if_neg (by rw [hc]; simp), if_pos (by rw [hd]; decide),
        if_neg (by rw [hsm]; simp), if_neg (by rw [hst]; simp)]
      simp
    have hexp : expectedSampleCounts fo ctx caseDef =
        getDepthStencilSampleCounts fo caseDef ctx.physicalDeviceProperties := by
      unfold expectedSampleCounts
      rw [hlist]
      simp [Nat.and_self]
    exact ⟨hexp, by rw [checkUsageFlags_eq_superset fo ctx caseDef hs hg, hexp]⟩
  · intro h
    have hc := and_mask_of_and_eq caseDef.usageFlags usageFlagsMask
      VK_IMAGE_USAGE_SAMPLED_BIT VK_IMAGE_USAGE_COLOR_ATTACHMENT_BIT h (by decide)
    have hd := and_mask_of_and_eq caseDef.usageFlags usageFlagsMask
      VK_IMAGE_USAGE_SAMPLED_BIT VK_IMAGE_USAGE_DEPTH_STENCIL_ATTACHMENT_BIT h (by decide)
    have hsm := and_mask_of_and_eq caseDef.usageFlags usageFlagsMask
      VK_IMAGE_USAGE_SAMPLED_BIT VK_IMAGE_USAGE_SAMPLED_BIT h (by decide)
    have hst := and_mask_of_and_eq caseDef.usageFlags usageFlagsMask
      VK_IMAGE_USAGE_SAMPLED_BIT VK_IMAGE_USAGE_STORAGE_BIT h (by decide)
    rw [Nat.and_self] at hsm
    rw [show VK_IMAGE_USAGE_SAMPLED_BIT &&& VK_IMAGE_USAGE_COLOR_ATTACHMENT_BIT = 0
      from by decide] at hc
    rw [show VK_IMAGE_USAGE_SAMPLED_BIT &&& VK_IMAGE_USAGE_DEPTH_STENCIL_ATTACHMENT_BIT = 0
      from by decide] at hd
    rw [show VK_IMAGE_USAGE_SAMPLED_BIT &&& VK_IMAGE_USAGE_STORAGE_BIT = 0
      from by decide] at hst
    have hlist : expectedSupersets fo ctx caseDef =
        [getSampledSampleCounts fo caseDef ctx.physicalDeviceProperties] := by
      unfold expectedSupersets
      rw [if_neg (by rw [hc]; simp), if_neg (by rw [hd]; simp),
        if_pos (by rw [hsm]; decide), if_neg (by rw [hst]; simp)]
      simp
    have hexp : expectedSampleCounts fo ctx caseDef =
        getSampledSampleCounts fo caseDef ctx.physicalDeviceProperties := by
      unfold expectedSampleCounts
      rw [hlist]
      simp [Nat.and_self]
    exact ⟨hexp, by rw [checkUsageFlags_eq_superset fo ctx caseDef hs hg, hexp]⟩
  · intro h
    have hc := and_mask_of_and_eq caseDef.usageFlags usageFlagsMask
      VK_IMAGE_USAGE_STORAGE_BIT VK_IMAGE_USAGE_COLOR_ATTACHMENT_BIT h (by decide)
    have hd := and_mask_of_and_eq caseDef.usageFlags usageFlagsMask
      VK_IMAGE_USAGE_STORAGE_BIT VK_IMAGE_USAGE_DEPTH_STENCIL_ATTACHMENT_BIT h (by decide)
    have hsm := and_mask_of_and_eq caseDef.usageFlags usageFlagsMask
      VK_IMAGE_USAGE_STORAGE_BIT VK_IMAGE_USAGE_SAMPLED_BIT h (by decide)
    have hst := and_mask_of_and_eq caseDef.usageFlags usageFlagsMask
      VK_IMAGE_USAGE_STORAGE_BIT VK_IMAGE_USAGE_STORAGE_BIT h (by decide)
    rw [Nat.and_self] at hst
    rw [show VK_IMAGE_USAGE_STORAGE_BIT &&& VK_IMAGE_USAGE_COLOR_ATTACHMENT_BIT = 0
      from by decide] at hc
    rw [show VK_IMAGE_USAGE_STORAGE_BIT &&& VK_IMAGE_USAGE_DEPTH_STENCIL_ATTACHMENT_BIT = 0
      from by decide] at hd
    rw [show VK_IMAGE_USAGE_STORAGE_BIT &&& VK_IMAGE_USAGE_SAMPLED_BIT = 0
      from by decide] at hsm
    have hlist : expectedSupersets fo ctx caseDef =
        [getStorageSampleCounts ctx.physicalDeviceProperties] := by
      unfold expectedSupersets
      rw [if_neg (by rw [hc]; simp), if_neg (by rw [hd]; simp),
        if_neg (by rw [hsm]; simp), if_pos (by rw [hst]; decide)]
      simp
    have hexp : expectedSampleCounts fo ctx caseDef =
        getStorageSampleCounts ctx.physicalDeviceProperties := by
      unfold expectedSampleCounts
      rw [hlist]
      simp [Nat.and_self]
    exact ⟨hexp, by rw [checkUsageFlags_eq_superset fo ctx caseDef hs hg, hexp]⟩
  · intro h
    exact ⟨checkUsageFlags_eq_superset fo ctx caseDef hs hg,
      expectedSampleCounts_testBit fo ctx caseDef (expectedSupersets_ne_nil fo ctx caseDef h)⟩

/-- Witness for C3 at a concrete snapshot: color-attachment usage alone on the
unorm format 37 makes the expected set the framebuffer-color limit 15, and the
check is the superset comparison against it. -/
theorem c3_usage_flags_combinator_witness :
    checkUsageFlags mdlOracle mdlCtx
      ⟨37, VkImageType.VK_IMAGE_TYPE_2D, VkImageTiling.VK_IMAGE_TILING_OPTIMAL,
        VK_IMAGE_USAGE_COLOR_ATTACHMENT_BIT⟩ = true := by
  have h := ((c3_usage_flags_combinator mdlOracle mdlCtx
    ⟨37, VkImageType.VK_IMAGE_TYPE_2D, VkImageTiling.VK_IMAGE_TILING_OPTIMAL,
      VK_IMAGE_USAGE_COLOR_ATTACHMENT_BIT⟩ rfl (by decide)).2.1 (by decide)).2
  rw [h]
  decide

lemma mem_ite_nil (c : Prop) [Decidable c] (l : List Nat) (x : Nat) :
    x ∈ (if c then l else []) ↔ c ∧ x ∈ l := by
  by_cases h : c <;> simp [h]

lemma expectedSupersets_mono (fo : FormatOracle) (ctx : Context) (format : Nat)
    (imageType : VkImageType) (imageTiling : VkImageTiling) (U V : Nat)
    (hUV : U &&& V = U) :
    ∀ x ∈ expectedSupersets fo ctx ⟨format, imageType, imageTiling, U⟩,
      x ∈ expectedSupersets fo ctx ⟨format, imageType, imageTiling, V⟩ := by
  intro x hx
  unfold expectedSupersets at hx ⊢
  simp only [List.mem_append, mem_ite_nil] at hx ⊢
  rcases hx with ((⟨hc, hm⟩ | ⟨hc, hm⟩) | ⟨hc, hm⟩) | ⟨hc, hm⟩
  · exact Or.inl (Or.inl (Or.inl ⟨and_ne_zero_mono U V _ hUV hc, hm⟩))
  · exact Or.inl (Or.inl (Or.inr ⟨and_ne_zero_mono U V _ hUV hc, hm⟩))
  · exact Or.inl (Or.inr ⟨and_ne_zero_mono U V _ hUV hc, hm⟩)
  · exact Or.inr ⟨and_ne_zero_mono U V _ hUV hc, hm⟩

/-- Claim C9, counterexample to the statement as written: with no usage bit
set the expected set is the single-sample set {1}, while adding the
color-attachment bit makes it the framebuffer-color limit {1,2,4,8}, which is
not a subset of {1} — so monotonicity fails for the pair U = 0 ⊆ V = COLOR. -/
theorem c9_counterexample :
    (0 : Nat) &&& VK_IMAGE_USAGE_COLOR_ATTACHMENT_BIT = 0 ∧
    expectedSampleCounts mdlOracle mdlCtx
      ⟨37, VkImageType.VK_IMAGE_TYPE_2D, VkImageTiling.VK_IMAGE_TILING_OPTIMAL, 0⟩ =
      VK_SAMPLE_COUNT_1_BIT ∧
    isSuperset
      (expectedSampleCounts mdlOracle mdlCtx
        ⟨37, VkImageType.VK_IMAGE_TYPE_2D, VkImageTiling.VK_IMAGE_TILING_OPTIMAL, 0⟩)
      (expectedSampleCounts mdlOracle mdlCtx
        ⟨37, VkImageType.VK_IMAGE_TYPE_2D, VkImageTiling.VK_IMAGE_TILING_OPTIMAL,
          VK_IMAGE_USAGE_COLOR_ATTACHMENT_BIT⟩) = false := by
  decide

/-- Claim C9 as amended: for a fixed format and capability snapshot, the
expected sample-count set of the usage-flags check is monotonically
non-increasing under usage-flag addition between sets that contribute at
least one of the four usage bits: for U ⊆ V with U contributing, the expected
set for V is a subset of the expected set for U. -/
theorem c9_expected_monotone (fo : FormatOracle) (ctx : Context) (format : Nat)
    (imageType : VkImageType) (imageTiling : VkImageTiling) (U V : Nat)
    (hU : U &&& usageFlagsMask ≠ 0) (hUV : U &&& V = U) :
    isSuperset
      (expectedSampleCounts fo ctx ⟨format, imageType, imageTiling, U⟩)
      (expectedSampleCounts fo ctx ⟨format, imageType, imageTiling, V⟩) = true := by
  have hV : V &&& usageFlagsMask ≠ 0 := and_ne_zero_mono U V usageFlagsMask hUV hU
  have hneU : expectedSupersets fo ctx ⟨format, imageType, imageTiling, U⟩ ≠ [] :=
    expectedSupersets_ne_nil fo ctx ⟨format, imageType, imageTiling, U⟩ hU
  have hneV : expectedSupersets fo ctx ⟨format, imageType, imageTiling, V⟩ ≠ [] :=
    expectedSupersets_ne_nil fo ctx ⟨format, imageType, imageTiling, V⟩ hV
  rw [isSuperset_true_iff]
  intro k hk
  rw [expectedSampleCounts_testBit fo ctx _ hneV k] at hk
  rw [expectedSampleCounts_testBit fo ctx _ hneU k]
  rw [List.all_eq_true] at hk ⊢
  intro x hx
  exact hk x (expectedSupersets_mono fo ctx format imageType imageTiling U V hUV x hx)

/-- Witness for the amended C9: adding the depth/stencil-attachment bit to a
color-attachment usage shrinks the expected set (here from {1,2,4,8} to 0),
and the superset relation holds. -/
theorem c9_expected_monotone_witness :
    isSuperset
      (expectedSampleCounts mdlOracle mdlCtx
        ⟨37, VkImageType.VK_IMAGE_TYPE_2D, VkImageTiling.VK_IMAGE_TILING_OPTIMAL,
          VK_IMAGE_USAGE_COLOR_ATTACHMENT_BIT⟩)
      (expectedSampleCounts mdlOracle mdlCtx
        ⟨37, VkImageType.VK_IMAGE_TYPE_2D, VkImageTiling.VK_IMAGE_TILING_OPTIMAL,
          VK_IMAGE_USAGE_COLOR_ATTACHMENT_BIT |||
            VK_IMAGE_USAGE_DEPTH_STENCIL_ATTACHMENT_BIT⟩) = true :=
  c9_expected_monotone mdlOracle mdlCtx 37 VkImageType.VK_IMAGE_TYPE_2D
    VkImageTiling.VK_IMAGE_TILING_OPTIMAL VK_IMAGE_USAGE_COLOR_ATTACHMENT_BIT
    (VK_IMAGE_USAGE_COLOR_ATTACHMENT_BIT ||| VK_IMAGE_USAGE_DEPTH_STENCIL_ATTACHMENT_BIT)
    (by decide) (by decide)

/-- Claim C4: `getColorSampleCounts` returns 0 for compressed formats;
otherwise the framebuffer-color limit for floating-point, signed-normalized or
unsigned-normalized formats, the extended framebuffer-integer-color limit for
signed- or unsigned-integer formats, and 0 for every other format. -/
theorem c4_color_sample_counts (fo : FormatOracle) (caseDef : CaseDef)
    (p : VkPhysicalDeviceProperties2) (p12 : VkPhysicalDeviceVulkan12Properties) :
    (fo.isCompressedFormat caseDef.format = true →
      getColorSampleCounts fo caseDef p p12 = 0) ∧
    (fo.isCompressedFormat caseDef.format = false →
      ((isFloatFormat fo caseDef.format = true ∨ isSnormFormat fo caseDef.format = true ∨
          isUnormFormat fo caseDef.format = true) →
        getColorSampleCounts fo caseDef p p12 =
          p.properties.limits.framebufferColorSampleCounts) ∧
      ((isIntFormat fo caseDef.format = true ∨ isUintFormat fo caseDef.format = true) →
        getColorSampleCounts fo caseDef p p12 = p12.framebufferIntegerColorSampleCounts) ∧
      (isFloatFormat fo caseDef.format = false → isSnormFormat fo caseDef.format = false →
        isUnormFormat fo caseDef.format = false → isIntFormat fo caseDef.format = false →
        isUintFormat fo caseDef.format = false →
        getColorSampleCounts fo caseDef p p12 = 0)) := by
  unfold getColorSampleCounts isFloatFormat isSnormFormat isUnormFormat isIntFormat isUintFormat
  cases h : fo.getTextureChannelClass caseDef.format <;>
    cases hc : fo.isCompressedFormat caseDef.format <;>
      simp [h, hc]

/-- Witness for C4 at a concrete input: the unsigned-integer color format 41
selects the extended framebuffer-integer-color limit. -/
theorem c4_color_sample_counts_witness :
    getColorSampleCounts mdlOracle
      ⟨41, VkImageType.VK_IMAGE_TYPE_2D, VkImageTiling.VK_IMAGE_TILING_OPTIMAL,
        VK_IMAGE_USAGE_COLOR_ATTACHMENT_BIT⟩ mdlProps ⟨9⟩ = 9 :=
  ((c4_color_sample_counts mdlOracle
    ⟨41, VkImageType.VK_IMAGE_TYPE_2D, VkImageTiling.VK_IMAGE_TILING_OPTIMAL,
      VK_IMAGE_USAGE_COLOR_ATTACHMENT_BIT⟩ mdlProps ⟨9⟩).2 rfl).2.1 (Or.inr rfl)

/-- A snapshot for which the cube-compatible variant's own query (the one
issued with the cube-compatible create flag) reports
`VK_ERROR_FORMAT_NOT_SUPPORTED`, while the plain query (no create flags)
succeeds with the single-sample set. -/
def ctxC6 : Context where
  getPhysicalDeviceFormatProperties := fun _ => ⟨0, VK_FORMAT_FEATURE_COLOR_ATTACHMENT_BIT, 0⟩
  getPhysicalDeviceImageFormatProperties := fun _ _ _ _ createFlags =>
    if createFlags = VK_IMAGE_CREATE_CUBE_COMPATIBLE_BIT then
      (VkResult.VK_ERROR_FORMAT_NOT_SUPPORTED, ⟨0⟩)
    else
      (VkResult.VK_SUCCESS, ⟨1⟩)
  physicalDeviceProperties := mdlProps
  physicalDeviceProperties12 := ⟨9⟩

/-- A snapshot for which every image-format query reports
`VK_ERROR_FORMAT_NOT_SUPPORTED`. -/
def ctxFNS : Context where
  getPhysicalDeviceFormatProperties := fun _ => ⟨0, 0, 0⟩
  getPhysicalDeviceImageFormatProperties := fun _ _ _ _ _ =>
    (VkResult.VK_ERROR_FORMAT_NOT_SUPPORTED, ⟨0⟩)
  physicalDeviceProperties := mdlProps
  physicalDeviceProperties12 := ⟨9⟩

/-- Claim C6, counterexample to the statement as written: on the
cube-compatible variant the support probe (issued without the cube-compatible
create flag) succeeds, and the variant's own query returns
`VK_ERROR_FORMAT_NOT_SUPPORTED`; that result is reported as a check failure,
not converted to a skip. -/
theorem c6_counterexample :
    (ctxC6.getPhysicalDeviceImageFormatProperties 37 VkImageType.VK_IMAGE_TYPE_2D
      VkImageTiling.VK_IMAGE_TILING_OPTIMAL 0 VK_IMAGE_CREATE_CUBE_COMPATIBLE_BIT).fst =
      VkResult.VK_ERROR_FORMAT_NOT_SUPPORTED ∧
    runCase mdlOracle ctxC6
      ⟨37, VkImageType.VK_IMAGE_TYPE_2D, VkImageTiling.VK_IMAGE_TILING_OPTIMAL, 0⟩
      SampleCountsSubtests.CUBE_COMPATIBLE_SUBTEST = CaseOutcome.fail := by
  decide

/-- Claim C6 as amended: a `VK_ERROR_FORMAT_NOT_SUPPORTED` at the support
probe (the query issued with the case's usage flags and no create flags)
converts the case to not-applicable before any rule evaluation, and otherwise
the case is never skipped; any non-success result of the variant's own
capability query — which for the cube-compatible variant uses the
cube-compatible create flag the support probe lacks — is reported as a check
failure. -/
theorem c6_skip_vs_failure (fo : FormatOracle) (ctx : Context) (caseDef : CaseDef)
    (subtest : SampleCountsSubtests) :
    ((ctx.getPhysicalDeviceImageFormatProperties caseDef.format caseDef.imageType
        caseDef.imageTiling caseDef.usageFlags 0).fst =
        VkResult.VK_ERROR_FORMAT_NOT_SUPPORTED →
      runCase fo ctx caseDef subtest = CaseOutcome.notSupported) ∧
    ((ctx.getPhysicalDeviceImageFormatProperties caseDef.format caseDef.imageType
        caseDef.imageTiling caseDef.usageFlags 0).fst ≠
        VkResult.VK_ERROR_FORMAT_NOT_SUPPORTED →
      runCase fo ctx caseDef subtest ≠ CaseOutcome.notSupported) ∧
    ((ctx.getPhysicalDeviceImageFormatProperties caseDef.format caseDef.imageType
        caseDef.imageTiling caseDef.usageFlags 0).fst ≠
        VkResult.VK_ERROR_FORMAT_NOT_SUPPORTED →
      (subtestQuery ctx caseDef subtest).fst ≠ VkResult.VK_SUCCESS →
      runCase fo ctx caseDef subtest = CaseOutcome.fail) := by
  refine ⟨?_, ?_, ?_⟩
  · intro h
    unfold runCase checkSupportThrows
    simp [h]
  · intro h
    have hns : checkSupportThrows ctx caseDef = false := by
      unfold checkSupportThrows
      simp [h]
    unfold runCase
    rw [hns]
    cases hrs : runSubtest fo ctx caseDef subtest <;> simp [hrs]
  · intro h hq
    have hns : checkSupportThrows ctx caseDef = false := by
      unfold checkSupportThrows
      simp [h]
    have hrs : runSubtest fo ctx caseDef subtest = false := by
      cases subtest with
      | LINEAR_TILING_AND_NOT_2D_IMAGE_TYPE =>
          simp only [subtestQuery] at hq
          unfold runSubtest checkLinearTilingAndNot2DImageType
          simp [hq]
      | CUBE_COMPATIBLE_SUBTEST =>
          simp only [subtestQuery] at hq
          unfold runSubtest checkCubeCompatible
          simp [hq]
      | OPTIMAL_TILING_FEATURES_SUBTEST =>
          simp only [subtestQuery] at hq
          unfold runSubtest checkOptimalTilingFeatures
          simp [hq]
      | YCBCR_CONVERSION_SUBTEST =>
          simp only [subtestQuery] at hq
          unfold runSubtest checkYCBCRConversion
          simp [hq]
      | USAGE_FLAGS_SUBTEST =>
          simp only [subtestQuery] at hq
          unfold runSubtest checkUsageFlags
          simp [hq]
      | ONE_SAMPLE_COUNT_PRESENT_SUBTEST =>
          simp only [subtestQuery] at hq
          unfold runSubtest checkOneSampleCountPresent
          simp [hq]
    unfold runCase
    rw [hns, hrs]
    simp

/-- Witness for the amended C6: with every query reporting
`VK_ERROR_FORMAT_NOT_SUPPORTED`, the support probe converts the case to
not-applicable. -/
theorem c6_skip_vs_failure_witness :
    runCase mdlOracle ctxFNS
      ⟨37, VkImageType.VK_IMAGE_TYPE_2D, VkImageTiling.VK_IMAGE_TILING_OPTIMAL, 0⟩
      SampleCountsSubtests.USAGE_FLAGS_SUBTEST = CaseOutcome.notSupported :=
  (c6_skip_vs_failure mdlOracle ctxFNS
    ⟨37, VkImageType.VK_IMAGE_TYPE_2D, VkImageTiling.VK_IMAGE_TILING_OPTIMAL, 0⟩
    SampleCountsSubtests.USAGE_FLAGS_SUBTEST).1 rfl

/-- One registered test case: its name, its case description and its assigned
subtest variant (the `SampleCountTest` constructor arguments that carry
logic). -/
structure SampleCountTest where
  name : String
  caseDef : CaseDef
  subtest : SampleCountsSubtests
deriving DecidableEq

/-- The fixed `std::array` of the four usage flags iterated by
`addUsageFlagsSubtests`, in source order. -/
def usageFlagsOrderList : List Nat :=
  [VK_IMAGE_USAGE_COLOR_ATTACHMENT_BIT, VK_IMAGE_USAGE_DEPTH_STENCIL_ATTACHMENT_BIT,
    VK_IMAGE_USAGE_SAMPLED_BIT, VK_IMAGE_USAGE_STORAGE_BIT]

/-- The usage mask built for one `flagsCombination` value: the inner loop of
`addUsageFlagsSubtests` or-ing `usageFlags[flagIdx]` whenever bit `flagIdx` of
the combination is set. -/
def usageFromCombination (flagsCombination : Nat) : Nat :=
  (List.range 4).foldl
    (fun usage flagIdx =>
      if (flagsCombination >>> flagIdx) &&& 1 = 1 then
        usage ||| usageFlagsOrderList.getD flagIdx 0
      else
        usage) 0

/-- `addUsageFlagsSubtests`: one USAGE_FLAGS case per `flagsCombination`
below `1 <<< 4 = 16`, named by appending the active flag mnemonics in the
fixed order COLOR, DEPTH, SAMPLED, STORAGE to the format case name. -/
def addUsageFlagsSubtests (samplesCaseName : String) (caseDef : CaseDef) :
    List SampleCountTest :=
  (List.range 16).map fun flagsCombination =>
    let usage := usageFromCombination flagsCombination
    let caseName := samplesCaseName ++ "_USAGE_FLAGS"
    let caseName := if usage &&& VK_IMAGE_USAGE_COLOR_ATTACHMENT_BIT ≠ 0 then
      caseName ++ "_COLOR" else caseName
    let caseName := if usage &&& VK_IMAGE_USAGE_DEPTH_STENCIL_ATTACHMENT_BIT ≠ 0 then
      caseName ++ "_DEPTH" else caseName
    let caseName := if usage &&& VK_IMAGE_USAGE_SAMPLED_BIT ≠ 0 then
      caseName ++ "_SAMPLED" else caseName
    let caseName := if usage &&& VK_IMAGE_USAGE_STORAGE_BIT ≠ 0 then
      caseName ++ "_STORAGE" else caseName
    ⟨caseName, { caseDef with usageFlags := usage }, SampleCountsSubtests.USAGE_FLAGS_SUBTEST⟩

/-- The six format ranges of `enumerateAllFormatsToTest`, as pairs of first
and last `VkFormat` identifier.  The identifier values are the Vulkan
enumerant values of the named bounds (`R4G4_UNORM_PACK8` to
`ASTC_12x12_SRGB_BLOCK`, the 3-plane and 2-plane YCbCr ranges, the 4-bit-alpha
packed pair, the floating-point ASTC range and the PVRTC range), modelled from
the spec since the enumerant table is framework code. -/
def allFormatsRanges : List (Nat × Nat) :=
  [(1, 184),
   (1000156000, 1000156033),
   (1000330000, 1000330003),
   (1000340000, 1000340001),
   (1000066000, 1000066013),
   (1000054000, 1000054007)]

/-- The inner loop `for (format = first; format <= last; format = format + 1)`
collecting every identifier of a range. -/
def formatLoop (first last : Nat) : List Nat :=
  (List.range (last + 1 - first)).map fun k => first + k

/-- `enumerateAllFormatsToTest`: all six ranges, in order. -/
def enumerateAllFormatsToTest : List Nat :=
  allFormatsRanges.flatMap fun range => formatLoop range.fst range.snd

/-- The cases `createImageSampleCountsTests` registers for one
(image type, tiling, format) triple, in registration order: for a 2D optimal
case the cube-compatible, optimal-tiling-features, conditional YCbCr,
sixteen usage-flags and one-sample-count-present cases; otherwise the single
linear-tiling-or-not-2D case. -/
def casesForFormat (fo : FormatOracle) (getFormatShortString : Nat → String)
    (imageType : ImageType) (imageTiling : VkImageTiling) (imageFormat : Nat) :
    List SampleCountTest :=
  let formatStr := getFormatShortString imageFormat
  let caseDef : CaseDef := ⟨imageFormat, mapImageType imageType, imageTiling, 0⟩
  if caseDef.imageType = VkImageType.VK_IMAGE_TYPE_2D ∧
      caseDef.imageTiling = VkImageTiling.VK_IMAGE_TILING_OPTIMAL then
    [⟨formatStr ++ "_CUBE_COMPATIBLE_SUBTEST", caseDef,
        SampleCountsSubtests.CUBE_COMPATIBLE_SUBTEST⟩,
      ⟨formatStr ++ "_OPTIMAL_TILING_FEATURES_SUBTEST", caseDef,
        SampleCountsSubtests.OPTIMAL_TILING_FEATURES_SUBTEST⟩] ++
    (if fo.isYCbCrFormat caseDef.format then
      [⟨formatStr ++ "_YCBCR_CONVERSION_SUBTEST", caseDef,
        SampleCountsSubtests.YCBCR_CONVERSION_SUBTEST⟩]
    else []) ++
    addUsageFlagsSubtests formatStr caseDef ++
    [⟨formatStr ++ "_ONE_SAMPLE_COUNT_PRESENT_SUBTEST", caseDef,
      SampleCountsSubtests.ONE_SAMPLE_COUNT_PRESENT_SUBTEST⟩]
  else
    [⟨formatStr ++ "_LINEAR_TILING_AND_NOT_2D_IMAGE_TYPE_SUBTEST", caseDef,
      SampleCountsSubtests.LINEAR_TILING_AND_NOT_2D_IMAGE_TYPE⟩]

/-- `createImageSampleCountsTests`: the full grid, flattened with its group
keys: for each image type (1D, 2D, 3D), for each tiling (optimal, linear),
for each format of the six ranges, the cases for that triple, each tagged with
the image-type and tiling group it is registered under. -/
def createImageSampleCountsTests (fo : FormatOracle) (getFormatShortString : Nat → String) :
    List (ImageType × VkImageTiling × SampleCountTest) :=
  [ImageType.IMAGE_TYPE_1D, ImageType.IMAGE_TYPE_2D, ImageType.IMAGE_TYPE_3D].flatMap
    fun imageType =>
      [VkImageTiling.VK_IMAGE_TILING_OPTIMAL, VkImageTiling.VK_IMAGE_TILING_LINEAR].flatMap
        fun imageTiling =>
          enumerateAllFormatsToTest.flatMap fun imageFormat =>
            (casesForFormat fo getFormatShortString imageType imageTiling imageFormat).map
              fun t => (imageType, imageTiling, t)

/-- Modelled from the spec: `getFormatShortString` (framework code) yields a
deterministic short lowercase name per format; this concrete instance names
the formats used as concrete inputs and falls back to a digit-suffixed stub. -/
def mdlShortName : Nat → String := fun format =>
  if format = 1 then "r4g4_unorm_pack8"
  else if format = 37 then "r8g8b8a8_unorm"
  else if format = 41 then "r8g8b8a8_uint"
  else "fmt" ++ toString format

/-- The variant tag appended to the format name for a USAGE_FLAGS case,
as a single string. -/
def usageFlagsTag (usage : Nat) : String :=
  "_USAGE_FLAGS" ++
    (if usage &&& VK_IMAGE_USAGE_COLOR_ATTACHMENT_BIT ≠ 0 then "_COLOR" else "") ++
    (if usage &&& VK_IMAGE_USAGE_DEPTH_STENCIL_ATTACHMENT_BIT ≠ 0 then "_DEPTH" else "") ++
    (if usage &&& VK_IMAGE_USAGE_SAMPLED_BIT ≠ 0 then "_SAMPLED" else "") ++
    (if usage &&& VK_IMAGE_USAGE_STORAGE_BIT ≠ 0 then "_STORAGE" else "")

lemma append_ite (s a : String) (c : Prop) [Decidable c] :
    (if c then s ++ a else s) = s ++ (if c then a else "") := by
  by_cases h : c <;> simp [h, String.append_empty]

lemma addUsageFlagsSubtests_eq (samplesCaseName : String) (caseDef : CaseDef) :
    addUsageFlagsSubtests samplesCaseName caseDef =
      (List.range 16).map fun flagsCombination =>
        ⟨samplesCaseName ++ usageFlagsTag (usageFromCombination flagsCombination),
          { caseDef with usageFlags := usageFromCombination flagsCombination },
          SampleCountsSubtests.USAGE_FLAGS_SUBTEST⟩ := by
  unfold addUsageFlagsSubtests
  apply List.map_congr_left
  intro k _
  simp only [SampleCountTest.mk.injEq, and_true]
  rw [append_ite, append_ite, append_ite, append_ite]
  unfold usageFlagsTag
  simp [String.append_assoc]

lemma mem_formatLoop (first last f : Nat) (h : first ≤ last) :
    f ∈ formatLoop first last ↔ first ≤ f ∧ f ≤ last := by
  unfold formatLoop
  simp only [List.mem_map, List.mem_range]
  constructor
  · rintro ⟨k, hk, rfl⟩
    omega
  · rintro ⟨h1, h2⟩
    exact ⟨f - first, by omega, by omega⟩

/-- Claim C7: for a 2D-optimal triple the enumerator emits exactly one
cube-compatible case, one optimal-tiling-features case, a YCbCr-conversion
case exactly for chroma-subsampled formats, sixteen usage-flags cases — one
per subset of the four usage bits, named by the active flag mnemonics in the
fixed order COLOR, DEPTH, SAMPLED, STORAGE — and one one-sample-count-present
case; every other triple yields exactly one linear-tiling-or-not-2D case; and
iterating a format range visits every identifier between its bounds
inclusively. -/
theorem c7_case_enumeration (fo : FormatOracle) (sn : Nat → String) (imageFormat : Nat) :
    (∀ imageType imageTiling,
      mapImageType imageType = VkImageType.VK_IMAGE_TYPE_2D →
      imageTiling = VkImageTiling.VK_IMAGE_TILING_OPTIMAL →
      ((casesForFormat fo sn imageType imageTiling imageFormat).countP
          (fun t => t.subtest == SampleCountsSubtests.CUBE_COMPATIBLE_SUBTEST) = 1 ∧
        (casesForFormat fo sn imageType imageTiling imageFormat).countP
          (fun t => t.subtest == SampleCountsSubtests.OPTIMAL_TILING_FEATURES_SUBTEST) = 1 ∧
        (casesForFormat fo sn imageType imageTiling imageFormat).countP
          (fun t => t.subtest == SampleCountsSubtests.YCBCR_CONVERSION_SUBTEST) =
          (if fo.isYCbCrFormat imageFormat then 1 else 0) ∧
        (casesForFormat fo sn imageType imageTiling imageFormat).countP
          (fun t => t.subtest == SampleCountsSubtests.USAGE_FLAGS_SUBTEST) = 16 ∧
        (casesForFormat fo sn imageType imageTiling imageFormat).countP
          (fun t => t.subtest == SampleCountsSubtests.ONE_SAMPLE_COUNT_PRESENT_SUBTEST) = 1 ∧
        (casesForFormat fo sn imageType imageTiling imageFormat).countP
          (fun t => t.subtest == SampleCountsSubtests.LINEAR_TILING_AND_NOT_2D_IMAGE_TYPE) = 0) ∧
      (∀ k, k < 16 →
        (⟨sn imageFormat ++ usageFlagsTag (usageFromCombination k),
          ⟨imageFormat, mapImageType imageType, imageTiling, usageFromCombination k⟩,
          SampleCountsSubtests.USAGE_FLAGS_SUBTEST⟩ : SampleCountTest) ∈
          casesForFormat fo sn imageType imageTiling imageFormat) ∧
      (∀ k1, k1 < 16 → ∀ k2, k2 < 16 →
        usageFromCombination k1 = usageFromCombination k2 → k1 = k2)) ∧
    (∀ imageType imageTiling,
      ¬(mapImageType imageType = VkImageType.VK_IMAGE_TYPE_2D ∧
          imageTiling = VkImageTiling.VK_IMAGE_TILING_OPTIMAL) →
      casesForFormat fo sn imageType imageTiling imageFormat =
        [⟨sn imageFormat ++ "_LINEAR_TILING_AND_NOT_2D_IMAGE_TYPE_SUBTEST",
          ⟨imageFormat, mapImageType imageType, imageTiling, 0⟩,
          SampleCountsSubtests.LINEAR_TILING_AND_NOT_2D_IMAGE_TYPE⟩]) ∧
    (∀ p ∈ allFormatsRanges, ∀ f, f ∈ formatLoop p.fst p.snd ↔ p.fst ≤ f ∧ f ≤ p.snd) := by
  refine ⟨?_, ?_, ?_⟩
  · intro imageType imageTiling h2d hopt
    have hbranch : casesForFormat fo sn imageType imageTiling imageFormat =
        [⟨sn imageFormat ++ "_CUBE_COMPATIBLE_SUBTEST",
            ⟨imageFormat, mapImageType imageType, imageTiling, 0⟩,
            SampleCountsSubtests.CUBE_COMPATIBLE_SUBTEST⟩,
          ⟨sn imageFormat ++ "_OPTIMAL_TILING_FEATURES_SUBTEST",
            ⟨imageFormat, mapImageType imageType, imageTiling, 0⟩,
            SampleCountsSubtests.OPTIMAL_TILING_FEATURES_SUBTEST⟩] ++
        (if fo.isYCbCrFormat imageFormat then
          [⟨sn imageFormat ++ "_YCBCR_CONVERSION_SUBTEST",
            ⟨imageFormat, mapImageType imageType, imageTiling, 0⟩,
            SampleCountsSubtests.YCBCR_CONVERSION_SUBTEST⟩]
        else []) ++
        addUsageFlagsSubtests (sn imageFormat)
          ⟨imageFormat, mapImageType imageType, imageTiling, 0⟩ ++
        [⟨sn imageFormat ++ "_ONE_SAMPLE_COUNT_PRESENT_SUBTEST",
          ⟨imageFormat, mapImageType imageType, imageTiling, 0⟩,
          SampleCountsSubtests.ONE_SAMPLE_COUNT_PRESENT_SUBTEST⟩] := by
      unfold casesForFormat
      rw [if_pos ⟨h2d, hopt⟩]
    refine ⟨?_, ?_, ?_⟩
    · rw [hbranch, addUsageFlagsSubtests_eq]
      cases hy : fo.isYCbCrFormat imageFormat <;>
        simp [hy, List.countP_append, List.countP_cons, List.countP_map, Function.comp_def,
          List.countP_eq_length]
    · intro k hk
      rw [hbranch]
      refine List.mem_append.mpr (Or.inl (List.mem_append.mpr (Or.inr ?_)))
      rw [addUsageFlagsSubtests_eq]
      exact List.mem_map.mpr ⟨k, List.mem_range.mpr hk, rfl⟩
    · decide
  · intro imageType imageTiling hne
    unfold casesForFormat
    rw [if_neg hne]
  · intro p hp f
    simp only [allFormatsRanges, List.mem_cons, List.not_mem_nil, or_false] at hp
    rcases hp with rfl | rfl | rfl | rfl | rfl | rfl <;>
      exact mem_formatLoop _ _ f (by decide)

/-- Witness for C7: for format 1 the 1D-optimal triple yields the single
linear-tiling-or-not-2D case, and identifier 1 lies in the first range. -/
theorem c7_case_enumeration_witness :
    casesForFormat mdlOracle mdlShortName ImageType.IMAGE_TYPE_1D
        VkImageTiling.VK_IMAGE_TILING_OPTIMAL 1 =
      [⟨mdlShortName 1 ++ "_LINEAR_TILING_AND_NOT_2D_IMAGE_TYPE_SUBTEST",
        ⟨1, mapImageType ImageType.IMAGE_TYPE_1D, VkImageTiling.VK_IMAGE_TILING_OPTIMAL, 0⟩,
        SampleCountsSubtests.LINEAR_TILING_AND_NOT_2D_IMAGE_TYPE⟩] ∧
    (1 ∈ formatLoop 1 184 ↔ 1 ≤ 1 ∧ 1 ≤ 184) :=
  ⟨(c7_case_enumeration mdlOracle mdlShortName 1).2.1 ImageType.IMAGE_TYPE_1D
      VkImageTiling.VK_IMAGE_TILING_OPTIMAL (by decide),
    (c7_case_enumeration mdlOracle mdlShortName 1).2.2 (1, 184) (by decide) 1⟩

/-- The variant tag the enumerator appends to the format short name for a
given subtest assignment (for USAGE_FLAGS the ordered-mnemonic tag; other
variants ignore the usage mask). -/
def caseTag : SampleCountsSubtests → Nat → String
  | SampleCountsSubtests.LINEAR_TILING_AND_NOT_2D_IMAGE_TYPE, _ =>
      "_LINEAR_TILING_AND_NOT_2D_IMAGE_TYPE_SUBTEST"
  | SampleCountsSubtests.CUBE_COMPATIBLE_SUBTEST, _ => "_CUBE_COMPATIBLE_SUBTEST"
  | SampleCountsSubtests.OPTIMAL_TILING_FEATURES_SUBTEST, _ =>
      "_OPTIMAL_TILING_FEATURES_SUBTEST"
  | SampleCountsSubtests.YCBCR_CONVERSION_SUBTEST, _ => "_YCBCR_CONVERSION_SUBTEST"
  | SampleCountsSubtests.USAGE_FLAGS_SUBTEST, usage => usageFlagsTag usage
  | SampleCountsSubtests.ONE_SAMPLE_COUNT_PRESENT_SUBTEST, _ =>
      "_ONE_SAMPLE_COUNT_PRESENT_SUBTEST"

/-- A string with no uppercase character, as the format short names are. -/
def lowerName (s : String) : Prop := ∀ c ∈ s.data, c.isUpper = false

/-- A string starting with an underscore followed by an uppercase letter, as
every variant tag does. -/
def tagHeadUpper (s : String) : Prop :=
  ∃ c cs, s.data = '_' :: c :: cs ∧ c.isUpper = true

lemma tagHeadUpper_append (s t : String) (h : tagHeadUpper s) : tagHeadUpper (s ++ t) := by
  obtain ⟨c, cs, hd, hu⟩ := h
  exact ⟨c, cs ++ t.data, by rw [String.data_append, hd]; rfl, hu⟩

lemma tagHeadUpper_usageFlagsTag (usage : Nat) : tagHeadUpper (usageFlagsTag usage) := by
  unfold usageFlagsTag
  apply tagHeadUpper_append
  apply tagHeadUpper_append
  apply tagHeadUpper_append
  apply tagHeadUpper_append
  exact ⟨'U', "SAGE_FLAGS".data, rfl, by decide⟩

lemma tagHeadUpper_caseTag (subtest : SampleCountsSubtests) (usage : Nat) :
    tagHeadUpper (caseTag subtest usage) := by
  cases subtest with
  | LINEAR_TILING_AND_NOT_2D_IMAGE_TYPE =>
      exact ⟨'L', "INEAR_TILING_AND_NOT_2D_IMAGE_TYPE_SUBTEST".data, rfl, by decide⟩
  | CUBE_COMPATIBLE_SUBTEST =>
      exact ⟨'C', "UBE_COMPATIBLE_SUBTEST".data, rfl, by decide⟩
  | OPTIMAL_TILING_FEATURES_SUBTEST =>
      exact ⟨'O', "PTIMAL_TILING_FEATURES_SUBTEST".data, rfl, by decide⟩
  | YCBCR_CONVERSION_SUBTEST =>
      exact ⟨'Y', "CBCR_CONVERSION_SUBTEST".data, rfl, by decide⟩
  | USAGE_FLAGS_SUBTEST => exact tagHeadUpper_usageFlagsTag usage
  | ONE_SAMPLE_COUNT_PRESENT_SUBTEST =>
      exact ⟨'O', "NE_SAMPLE_COUNT_PRESENT_SUBTEST".data, rfl, by decide⟩

lemma append_eq_split (A B S T : List Char)
    (hB : ∀ c ∈ B, c.isUpper = false)
    (hS : ∃ c cs, S = '_' :: c :: cs ∧ c.isUpper = true)
    (hT : ∃ c cs, T = '_' :: c :: cs ∧ c.isUpper = true)
    (w : List Char) (hw1 : B = A ++ w) (hw2 : S = w ++ T) : A = B ∧ S = T := by
  obtain ⟨c1, cs1, hS1, hu1⟩ := hS
  obtain ⟨c2, cs2, hT1, hu2⟩ := hT
  cases w with
  | nil =>
      refine ⟨?_, ?_⟩
      · rw [hw1, List.append_nil]
      · rw [hw2, List.nil_append]
  | cons x w2 =>
      exfalso
      rw [hS1] at hw2
      injection hw2 with hx hrest
      cases w2 with
      | nil =>
          have hrest2 : c1 :: cs1 = T := hrest
          rw [hT1] at hrest2
          injection hrest2 with hc _
          rw [hc] at hu1
          exact absurd hu1 (by decide)
      | cons y w3 =>
          injection hrest with hc _
          have hy : y ∈ B := by
            rw [hw1]
            exact List.mem_append.mpr (Or.inr (List.mem_cons.mpr
              (Or.inr (List.mem_cons.mpr (Or.inl rfl)))))
          have hyl := hB y hy
          rw [hc] at hu1
          rw [hu1] at hyl
          exact Bool.noConfusion hyl

lemma name_split (a b s t : String)
    (ha : lowerName a) (hb : lowerName b)
    (hs : tagHeadUpper s) (ht : tagHeadUpper t)
    (h : a ++ s = b ++ t) : a = b ∧ s = t := by
  have hd : a.data ++ s.data = b.data ++ t.data := by
    rw [← String.data_append a s, ← String.data_append b t, h]
  rcases List.append_eq_append_iff.mp hd with ⟨w, hw1, hw2⟩ | ⟨w, hw1, hw2⟩
  · obtain ⟨h1, h2⟩ := append_eq_split a.data b.data s.data t.data hb hs ht w hw1 hw2
    exact ⟨String.ext_iff.mpr h1, String.ext_iff.mpr h2⟩
  · obtain ⟨h1, h2⟩ := append_eq_split b.data a.data t.data s.data ha ht hs w hw1 hw2
    exact ⟨(String.ext_iff.mpr h1).symm, (String.ext_iff.mpr h2).symm⟩

lemma usageTag_inj_on_range : ∀ k1, k1 < 16 → ∀ k2, k2 < 16 →
    usageFlagsTag (usageFromCombination k1) = usageFlagsTag (usageFromCombination k2) →
    usageFromCombination k1 = usageFromCombination k2 := by
  decide

lemma tag_distinct : ∀ k, k < 16 →
    usageFlagsTag (usageFromCombination k) ≠ "_LINEAR_TILING_AND_NOT_2D_IMAGE_TYPE_SUBTEST" ∧
    usageFlagsTag (usageFromCombination k) ≠ "_CUBE_COMPATIBLE_SUBTEST" ∧
    usageFlagsTag (usageFromCombination k) ≠ "_OPTIMAL_TILING_FEATURES_SUBTEST" ∧
    usageFlagsTag (usageFromCombination k) ≠ "_YCBCR_CONVERSION_SUBTEST" ∧
    usageFlagsTag (usageFromCombination k) ≠ "_ONE_SAMPLE_COUNT_PRESENT_SUBTEST" := by
  decide

lemma caseTag_inj (st1 st2 : SampleCountsSubtests) (k1 k2 : Nat)
    (hk1 : k1 < 16) (hk2 : k2 < 16)
    (h : caseTag st1 (usageFromCombination k1) = caseTag st2 (usageFromCombination k2)) :
    st1 = st2 ∧ (st1 = SampleCountsSubtests.USAGE_FLAGS_SUBTEST →
      usageFromCombination k1 = usageFromCombination k2) := by
  cases st1 <;> cases st2 <;> simp only [caseTag] at h <;>
    first
      | exact ⟨rfl, fun _ => usageTag_inj_on_range k1 hk1 k2 hk2 h⟩
      | exact ⟨rfl, fun hh => absurd hh (by decide)⟩
      | exact absurd h (by decide)
      | exact absurd h ((tag_distinct k1 hk1).1)
      | exact absurd h ((tag_distinct k1 hk1).2.1)
      | exact absurd h ((tag_distinct k1 hk1).2.2.1)
      | exact absurd h ((tag_distinct k1 hk1).2.2.2.1)
      | exact absurd h ((tag_distinct k1 hk1).2.2.2.2)
      | exact absurd h.symm ((tag_distinct k2 hk2).1)
      | exact absurd h.symm ((tag_distinct k2 hk2).2.1)
      | exact absurd h.symm ((tag_distinct k2 hk2).2.2.1)
      | exact absurd h.symm ((tag_distinct k2 hk2).2.2.2.1)
      | exact absurd h.symm ((tag_distinct k2 hk2).2.2.2.2)

lemma mem_casesForFormat (fo : FormatOracle) (sn : Nat → String) (imageType : ImageType)
    (imageTiling : VkImageTiling) (imageFormat : Nat) (t : SampleCountTest)
    (h : t ∈ casesForFormat fo sn imageType imageTiling imageFormat) :
    t.caseDef.format = imageFormat ∧
    t.name = sn imageFormat ++ caseTag t.subtest t.caseDef.usageFlags ∧
    (t.subtest = SampleCountsSubtests.USAGE_FLAGS_SUBTEST →
      ∃ k, k < 16 ∧ t.caseDef.usageFlags = usageFromCombination k) ∧
    (t.subtest ≠ SampleCountsSubtests.USAGE_FLAGS_SUBTEST → t.caseDef.usageFlags = 0) := by
  unfold casesForFormat at h
  by_cases hc : mapImageType imageType = VkImageType.VK_IMAGE_TYPE_2D ∧
      imageTiling = VkImageTiling.VK_IMAGE_TILING_OPTIMAL
  · rw [if_pos hc, addUsageFlagsSubtests_eq] at h
    rcases List.mem_append.mp h with h1 | h1
    · rcases List.mem_append.mp h1 with h2 | h2
      · rcases List.mem_append.mp h2 with h3 | h3
        · rcases List.mem_cons.mp h3 with rfl | h4
          · exact ⟨rfl, rfl, fun hh => absurd hh (by simp), fun _ => rfl⟩
          · rcases List.mem_cons.mp h4 with rfl | h5
            · exact ⟨rfl, rfl, fun hh => absurd hh (by simp), fun _ => rfl⟩
            · exact absurd h5 (List.not_mem_nil t)
        · by_cases hy : fo.isYCbCrFormat imageFormat = true
          · rw [if_pos hy] at h3
            rcases List.mem_cons.mp h3 with rfl | h4
            · exact ⟨rfl, rfl, fun hh => absurd hh (by simp), fun _ => rfl⟩
            · exact absurd h4 (List.not_mem_nil t)
          · rw [if_neg hy] at h3
            exact absurd h3 (List.not_mem_nil t)
      · rcases List.mem_map.mp h2 with ⟨k, hk, rfl⟩
        exact ⟨rfl, rfl, fun _ => ⟨k, List.mem_range.mp hk, rfl⟩,
          fun hh => absurd rfl hh⟩
    · rcases List.mem_cons.mp h1 with rfl | h2
      · exact ⟨rfl, rfl, fun hh => absurd hh (by simp), fun _ => rfl⟩
      · exact absurd h2 (List.not_mem_nil t)
  · rw [if_neg hc] at h
    rcases List.mem_cons.mp h with rfl | h2
    · exact ⟨rfl, rfl, fun hh => absurd hh (by simp), fun _ => rfl⟩
    · exact absurd h2 (List.not_mem_nil t)

/-- Claim C8 as amended: within one (image type, tiling) group, the case
identifier determines the case: provided the format short names are lowercase
and distinct for the two formats involved, two cases of the same group with
the same name agree on format, variant, and usage flags.  Across the whole
grid the group keys (image type and tiling) — which the name string does not
encode — complete the tuple. -/
theorem c8_identifier_unique_within_group (fo : FormatOracle) (sn : Nat → String)
    (imageType : ImageType) (imageTiling : VkImageTiling) (f1 f2 : Nat)
    (t1 t2 : SampleCountTest)
    (hl1 : lowerName (sn f1)) (hl2 : lowerName (sn f2))
    (hinj : sn f1 = sn f2 → f1 = f2)
    (h1 : t1 ∈ casesForFormat fo sn imageType imageTiling f1)
    (h2 : t2 ∈ casesForFormat fo sn imageType imageTiling f2)
    (hname : t1.name = t2.name) :
    f1 = f2 ∧ t1.subtest = t2.subtest ∧
      t1.caseDef.usageFlags = t2.caseDef.usageFlags := by
  obtain ⟨hf1, hn1, hu1, hnon1⟩ := mem_casesForFormat fo sn imageType imageTiling f1 t1 h1
  obtain ⟨hf2, hn2, hu2, hnon2⟩ := mem_casesForFormat fo sn imageType imageTiling f2 t2 h2
  have hex1 : ∃ k, k < 16 ∧ t1.caseDef.usageFlags = usageFromCombination k := by
    by_cases hq : t1.subtest = SampleCountsSubtests.USAGE_FLAGS_SUBTEST
    · exact hu1 hq
    · exact ⟨0, by decide, by rw [hnon1 hq]; decide⟩
  have hex2 : ∃ k, k < 16 ∧ t2.caseDef.usageFlags = usageFromCombination k := by
    by_cases hq : t2.subtest = SampleCountsSubtests.USAGE_FLAGS_SUBTEST
    · exact hu2 hq
    · exact ⟨0, by decide, by rw [hnon2 hq]; decide⟩
  obtain ⟨k1, hk1, he1⟩ := hex1
  obtain ⟨k2, hk2, he2⟩ := hex2
  rw [hn1, hn2, he1, he2] at hname
  obtain ⟨hsn, htag⟩ := name_split (sn f1) (sn f2) _ _ hl1 hl2
    (tagHeadUpper_caseTag t1.subtest (usageFromCombination k1))
    (tagHeadUpper_caseTag t2.subtest (usageFromCombination k2)) hname
  obtain ⟨hst, husage⟩ := caseTag_inj t1.subtest t2.subtest k1 k2 hk1 hk2 htag
  refine ⟨hinj hsn, hst, ?_⟩
  by_cases hq : t1.subtest = SampleCountsSubtests.USAGE_FLAGS_SUBTEST
  · rw [he1, he2]
    exact husage hq
  · rw [hnon1 hq, hnon2 (by rw [← hst]; exact hq)]

/-- The 1D-optimal grid entry for format 1 under the modelled short names. -/
def c8CaseOptimal : ImageType × VkImageTiling × SampleCountTest :=
  (ImageType.IMAGE_TYPE_1D, VkImageTiling.VK_IMAGE_TILING_OPTIMAL,
    ⟨mdlShortName 1 ++ "_LINEAR_TILING_AND_NOT_2D_IMAGE_TYPE_SUBTEST",
      ⟨1, mapImageType ImageType.IMAGE_TYPE_1D, VkImageTiling.VK_IMAGE_TILING_OPTIMAL, 0⟩,
      SampleCountsSubtests.LINEAR_TILING_AND_NOT_2D_IMAGE_TYPE⟩)

/-- The 1D-linear grid entry for format 1 under the modelled short names. -/
def c8CaseLinear : ImageType × VkImageTiling × SampleCountTest :=
  (ImageType.IMAGE_TYPE_1D, VkImageTiling.VK_IMAGE_TILING_LINEAR,
    ⟨mdlShortName 1 ++ "_LINEAR_TILING_AND_NOT_2D_IMAGE_TYPE_SUBTEST",
      ⟨1, mapImageType ImageType.IMAGE_TYPE_1D, VkImageTiling.VK_IMAGE_TILING_LINEAR, 0⟩,
      SampleCountsSubtests.LINEAR_TILING_AND_NOT_2D_IMAGE_TYPE⟩)

/-- Claim C8, counterexample to the statement as written: two grid entries
with distinct tuples — same format, same variant, but different tiling —
carry the same identifier string, because the identifier encodes neither the
tiling nor the image type. -/
theorem c8_counterexample :
    c8CaseOptimal ∈ createImageSampleCountsTests mdlOracle mdlShortName ∧
    c8CaseLinear ∈ createImageSampleCountsTests mdlOracle mdlShortName ∧
    c8CaseOptimal.2.2.name = c8CaseLinear.2.2.name ∧
    c8CaseOptimal.2.1 ≠ c8CaseLinear.2.1 := by
  refine ⟨?_, ?_, rfl, by decide⟩
  · unfold createImageSampleCountsTests c8CaseOptimal
    refine List.mem_flatMap.mpr ⟨ImageType.IMAGE_TYPE_1D, by decide, ?_⟩
    refine List.mem_flatMap.mpr ⟨VkImageTiling.VK_IMAGE_TILING_OPTIMAL, by decide, ?_⟩
    refine List.mem_flatMap.mpr ⟨1, ?_, ?_⟩
    · unfold enumerateAllFormatsToTest
      refine List.mem_flatMap.mpr ⟨(1, 184), by decide, ?_⟩
      exact (mem_formatLoop 1 184 1 (by decide)).mpr (by decide)
    · refine List.mem_map.mpr ⟨_, ?_, rfl⟩
      decide
  · unfold createImageSampleCountsTests c8CaseLinear
    refine List.mem_flatMap.mpr ⟨ImageType.IMAGE_TYPE_1D, by decide, ?_⟩
    refine List.mem_flatMap.mpr ⟨VkImageTiling.VK_IMAGE_TILING_LINEAR, by decide, ?_⟩
    refine List.mem_flatMap.mpr ⟨1, ?_, ?_⟩
    · unfold enumerateAllFormatsToTest
      refine List.mem_flatMap.mpr ⟨(1, 184), by decide, ?_⟩
      exact (mem_formatLoop 1 184 1 (by decide)).mpr (by decide)
    · refine List.mem_map.mpr ⟨_, ?_, rfl⟩
      decide

/-- Witness for the amended C8, at format 1 and the cube-compatible case of
the 2D-optimal group. -/
theorem c8_identifier_unique_within_group_witness :
    (1 : Nat) = 1 ∧
    SampleCountsSubtests.CUBE_COMPATIBLE_SUBTEST =
      SampleCountsSubtests.CUBE_COMPATIBLE_SUBTEST ∧
    (0 : Nat) = 0 :=
  c8_identifier_unique_within_group mdlOracle mdlShortName ImageType.IMAGE_TYPE_2D
    VkImageTiling.VK_IMAGE_TILING_OPTIMAL 1 1
    ⟨mdlShortName 1 ++ "_CUBE_COMPATIBLE_SUBTEST",
      ⟨1, mapImageType ImageType.IMAGE_TYPE_2D, VkImageTiling.VK_IMAGE_TILING_OPTIMAL, 0⟩,
      SampleCountsSubtests.CUBE_COMPATIBLE_SUBTEST⟩
    ⟨mdlShortName 1 ++ "_CUBE_COMPATIBLE_SUBTEST",
      ⟨1, mapImageType ImageType.IMAGE_TYPE_2D, VkImageTiling.VK_IMAGE_TILING_OPTIMAL, 0⟩,
      SampleCountsSubtests.CUBE_COMPATIBLE_SUBTEST⟩
    (by unfold lowerName; decide) (by unfold lowerName; decide) (fun _ => rfl)
    (by decide) (by decide) rfl
